import Mathlib

/-!
# Verification of the QA-Playwright refactoring pipeline

A shallow embedding of the core pipeline of the repository
(parser, clustering, mapping engine, reconnaissance, code application and
verification loop), with theorems checking the specification's testable
properties against the embedded code.

Conventions of the embedding:
* JavaScript strings are modelled as Lean `String`s; the string operations
  of the source (`split`, `trim`, `includes`, `startsWith`, ...) are
  re-implemented over `List Char` so that concrete runs reduce in the kernel.
* JavaScript numbers used for scores/confidence are modelled as `ℚ`
  (the source only adds and divides small decimal constants).
* Effectful parts (filesystem probing, file reading, test execution) are
  modelled by explicit environment records of oracle functions; the control
  flow around them is translated from the source.
* Regular-expression matching in the source is translated pattern by pattern
  into explicit character-list matchers with the same search/backtracking
  behaviour.
-/

namespace QAPlugin

/-! ## JavaScript-style string helpers (over `List Char`) -/

abbrev Chars := List Char

/-- `pre` is a prefix of `l` (char-by-char). -/
def charsPrefix : Chars → Chars → Bool
  | [], _ => true
  | _ :: _, [] => false
  | a :: as, b :: bs => a == b && charsPrefix as bs

/-- `needle` occurs somewhere in `hay` (JS `String.prototype.includes`). -/
def charsInfix (needle : Chars) : Chars → Bool
  | [] => charsPrefix needle []
  | c :: rest => charsPrefix needle (c :: rest) || charsInfix needle rest

/-- JS `s.includes(sub)`. -/
def strContains (s sub : String) : Bool := charsInfix sub.data s.data

/-- JS `s.startsWith(pre)`. -/
def jsStartsWith (s pre : String) : Bool := charsPrefix pre.data s.data

/-- JS `s.endsWith(suf)`. -/
def jsEndsWith (s suf : String) : Bool := charsPrefix suf.data.reverse s.data.reverse

/-- JS `s.trim()`. -/
def jsTrim (s : String) : String :=
  String.mk (((s.data.dropWhile Char.isWhitespace).reverse.dropWhile Char.isWhitespace).reverse)

/-- JS `s.toLowerCase()` (ASCII, which is all the source feeds it). -/
def jsToLower (s : String) : String := String.mk (s.data.map Char.toLower)

/-- Split a character list at every character satisfying `p`
(JS `split` with a single-character class such as `/[-_]/`). -/
def charsSplit (p : Char → Bool) : Chars → List String
  | [] => [""]
  | c :: rest =>
    if p c then "" :: charsSplit p rest
    else
      match charsSplit p rest with
      | [] => [String.mk [c]]
      | s :: ss => (String.mk (c :: s.data)) :: ss

/-- JS `s.split(pred-class)` for a one-character class. -/
def jsSplitClass (p : Char → Bool) (s : String) : List String := charsSplit p s.data

/-- JS `s.split("\n")`. -/
def jsSplitLines (s : String) : List String := jsSplitClass (fun c => c == '\n') s

/-- JS `s.split(/\s+/)`: like splitting on single whitespace characters, but a
run of whitespace acts as one separator; only a leading/trailing run produces
an empty piece. -/
def jsSplitWS (s : String) : List String :=
  match jsSplitClass Char.isWhitespace s with
  | [] => [""]
  | [x] => [x]
  | x :: y :: rest =>
    x :: (((y :: rest).dropLast.filter (fun p => p ≠ "")) ++ [(y :: rest).getLast (by simp)])

/-- JS `arr.join(sep)`. -/
def jsJoin (sep : String) : List String → String
  | [] => ""
  | [x] => x
  | x :: y :: rest => x ++ sep ++ jsJoin sep (y :: rest)

/-- Insertion-order deduplication, as produced by `[...new Set(l)]`. -/
def jsDedup {α : Type} [DecidableEq α] (l : List α) : List α :=
  l.foldl (fun acc x => if x ∈ acc then acc else acc ++ [x]) []

/-- JS `x || default` for an optional number (`0` is falsy). -/
def jsOrRat (x : Option ℚ) (d : ℚ) : ℚ :=
  match x with
  | none => d
  | some v => if v = 0 then d else v

/-- JS `x || default` for an optional string (`""` is falsy). -/
def jsOrStr (x : Option String) (d : String) : String :=
  match x with
  | none => d
  | some v => if v = "" then d else v

/-- JS truthiness of an optional string (`undefined` and `""` are falsy). -/
def jsTruthyStr : Option String → Bool
  | none => false
  | some s => s ≠ ""

/-! ## Parser data model (`src/refactor/types.ts`, Phase II) -/

/-- The `type` field of `LocatorInfo` / `selectorType` of `LocatorEntry`. -/
inductive SelectorType where
  | testid | role | css | xpath | text | label | placeholder
deriving DecidableEq

/-- The `options` record attached to a locator.  The source only ever stores
the keys `name`, `exact` and `isVariable`, so the record is modelled with
exactly those fields (`none` = key absent). -/
structure LocOptions where
  name : Option String := none
  exact : Option Bool := none
  isVariable : Bool := false
deriving DecidableEq

/-- `LocatorInfo` from `types.ts`. -/
structure LocatorInfo where
  type : SelectorType
  value : String
  options : LocOptions
  fullExpression : String
deriving DecidableEq

/-- The `action` field of `ActionToken`.  The declared TS union plus the
three extra strings (`uncheck`, `innerText`, `inputValue`) that the
`VARIABLE_ACTION_PATTERN` branch can actually store through its type cast. -/
inductive ActionKind where
  | click | fill | type | goto | waitForURL | expect | textContent
  | check | press | hover | dblclick | selectOption | assign | other
  | uncheck | innerText | inputValue
deriving DecidableEq

/-- `ActionToken` from `types.ts`. -/
structure ActionToken where
  lineNumber : Nat
  rawCode : String
  actor : String
  action : ActionKind
  locator : Option LocatorInfo
  value : Option String
  isAssertion : Bool
  variableName : Option String := none
deriving DecidableEq

/-- The `type` field of `Cluster`. -/
inductive ClusterType where
  | NAVIGATION | AUTHENTICATION | FORM_SUBMISSION
  | MENU_INTERACTION | VERIFICATION | GENERIC
deriving DecidableEq

/-- `Cluster` from `types.ts`. -/
structure Cluster where
  id : String
  type : ClusterType
  intent : String
  tokens : List ActionToken
  assertions : List ActionToken
deriving DecidableEq

/-- The `usage` field of `TestDataItem`. -/
inductive Usage where
  | fill | type | assertion | other
deriving DecidableEq

/-- `TestDataItem` from `types.ts` (the `type` field is the literal string
the source stores there). -/
structure TestDataItem where
  variableName : String
  value : String
  type : String
  usage : Usage
deriving DecidableEq

/-! ## Tokenization pattern matchers (`parser.ts` lines 19-41)

Each JS regular expression of the parser is translated into an explicit
matcher over `List Char`.  A matcher tries to match at the head of the list;
`searchA` runs it at every start position in turn, which is exactly the
behaviour of an unanchored `String.prototype.match`. -/

/-- Match a literal string, returning the rest. -/
def dropLit : Chars → Chars → Option Chars
  | [], cs => some cs
  | _ :: _, [] => none
  | a :: as, c :: cs => if a == c then dropLit as cs else none

/-- `\s+`. -/
def wsPlus : Chars → Option Chars
  | [] => none
  | c :: cs => if c.isWhitespace then some (cs.dropWhile Char.isWhitespace) else none

/-- `\s*`. -/
def wsStar (cs : Chars) : Chars := cs.dropWhile Char.isWhitespace

/-- JS `\w` (ASCII word character). -/
def isWordChar (c : Char) : Bool := c.isAlphanum || c == '_'

/-- A quote character `['"`]` (codes 39, 34, 96). -/
def isQuoteChar (c : Char) : Bool := c.val == 39 || c.val == 34 || c.val == 96

/-- One character of the quote class. -/
def dropQuote : Chars → Option Chars
  | [] => none
  | c :: cs => if isQuoteChar c then some cs else none

/-- One character with the given code point. -/
def dropCode (n : Nat) : Chars → Option Chars
  | [] => none
  | c :: cs => if c.toNat == n then some cs else none

/-- Greedy `C+` for a character class `p`; fails on an empty match. -/
def takeClass1 (p : Char → Bool) (cs : Chars) : Option (String × Chars) :=
  let tk := cs.takeWhile p
  if tk.isEmpty then none else some (String.mk tk, cs.drop tk.length)

/-- Greedy `C*` for a character class `p`. -/
def takeClass0 (p : Char → Bool) (cs : Chars) : String × Chars :=
  (String.mk (cs.takeWhile p), cs.drop (cs.takeWhile p).length)

/-- Run an anchored matcher at every start position (unanchored regex search,
earliest match wins). -/
def searchA {α : Type} (f : Chars → Option α) : Chars → Option α
  | [] => f []
  | c :: rest =>
    match f (c :: rest) with
    | some r => some r
    | none => searchA f rest

/-- Ordered alternation `(a1|a2|...)` followed by the continuation `k`
(backtracks to the next alternative when `k` fails, like a regex engine). -/
def altLit {α : Type} (k : String → Chars → Option α) : List String → Chars → Option α
  | [], _ => none
  | a :: rest, cs =>
    match dropLit a.data cs with
    | some cs' =>
      match k a cs' with
      | some r => some r
      | none => altLit k rest cs
    | none => altLit k rest cs

/-- `(locator|getBy\w+)`, returning the matched constructor name. -/
def matchLocCtor (cs : Chars) : Option (String × Chars) :=
  match dropLit "locator".data cs with
  | some rest => some ("locator", rest)
  | none =>
    match dropLit "getBy".data cs with
    | some rest =>
      match takeClass1 isWordChar rest with
      | some (w, rest') => some ("getBy" ++ w, rest')
      | none => none
    | none => none

/-- `GOTO_PATTERN`: `await\s+page\.goto\s*\(\s*['"`]([^'"`]+)['"`]\s*\)`. -/
def matchGotoAt (cs : Chars) : Option String := do
  let cs ← dropLit "await".data cs
  let cs ← wsPlus cs
  let cs ← dropLit "page.goto".data cs
  let cs := wsStar cs
  let cs ← dropLit "(".data cs
  let cs := wsStar cs
  let cs ← dropQuote cs
  let (url, cs) ← takeClass1 (fun c => !(isQuoteChar c)) cs
  let cs ← dropQuote cs
  let cs := wsStar cs
  let _ ← dropLit ")".data cs
  some url

/-- `WAIT_URL_PATTERN`: `await\s+page\.waitForURL\s*\(\s*['"`]([^'"`]+)['"`]\s*\)`. -/
def matchWaitUrlAt (cs : Chars) : Option String := do
  let cs ← dropLit "await".data cs
  let cs ← wsPlus cs
  let cs ← dropLit "page.waitForURL".data cs
  let cs := wsStar cs
  let cs ← dropLit "(".data cs
  let cs := wsStar cs
  let cs ← dropQuote cs
  let (pat, cs) ← takeClass1 (fun c => !(isQuoteChar c)) cs
  let cs ← dropQuote cs
  let cs := wsStar cs
  let _ ← dropLit ")".data cs
  some pat

/-- `VARIABLE_PATTERN`: `const\s+(\w+)\s*=\s*page\.(locator|getBy\w+)\s*\(([^)]+)\)`. -/
def matchVariableAt (cs : Chars) : Option (String × String × String) := do
  let cs ← dropLit "const".data cs
  let cs ← wsPlus cs
  let (varName, cs) ← takeClass1 isWordChar cs
  let cs := wsStar cs
  let cs ← dropLit "=".data cs
  let cs := wsStar cs
  let cs ← dropLit "page.".data cs
  let (ctor, cs) ← matchLocCtor cs
  let cs := wsStar cs
  let cs ← dropLit "(".data cs
  let (args, cs) ← takeClass1 (fun c => !(c == ')')) cs
  let _ ← dropLit ")".data cs
  some (varName, ctor, args)

/-- `ACTION_CHAIN_PATTERN`:
`await\s+page\.(locator|getBy\w+)\s*\(([^)]+)\)\.(\w+)\s*\(([^)]*)\)`. -/
def matchChainAt (cs : Chars) : Option (String × String × String × String) := do
  let cs ← dropLit "await".data cs
  let cs ← wsPlus cs
  let cs ← dropLit "page.".data cs
  let (ctor, cs) ← matchLocCtor cs
  let cs := wsStar cs
  let cs ← dropLit "(".data cs
  let (args, cs) ← takeClass1 (fun c => !(c == ')')) cs
  let cs ← dropLit ").".data cs
  let (act, cs) ← takeClass1 isWordChar cs
  let cs := wsStar cs
  let cs ← dropLit "(".data cs
  let (actArgs, cs) := takeClass0 (fun c => !(c == ')')) cs
  let _ ← dropLit ")".data cs
  some (ctor, args, act, actArgs)

/-- The action alternatives of `VARIABLE_ACTION_PATTERN`. -/
def variableActionAlts : List String :=
  ["click", "fill", "type", "check", "uncheck", "press", "hover",
   "dblclick", "textContent", "innerText", "inputValue"]

/-- `VARIABLE_ACTION_PATTERN`: `await\s+(\w+)\.(click|...)\s*\(([^)]*)\)`. -/
def matchVarActionAt (cs : Chars) : Option (String × String × String) := do
  let cs ← dropLit "await".data cs
  let cs ← wsPlus cs
  let (varName, cs) ← takeClass1 isWordChar cs
  let cs ← dropLit ".".data cs
  altLit (fun act cs => do
      let cs := wsStar cs
      let cs ← dropLit "(".data cs
      let (args, cs) := takeClass0 (fun c => !(c == ')')) cs
      let _ ← dropLit ")".data cs
      some (varName, act, args))
    variableActionAlts cs

/-- The assertion alternatives of `EXPECT_PATTERN` (in source order; `toBe`
sits before the longer `toBeChecked`/... alternatives, so backtracking across
alternatives matters and is implemented by `altLit`). -/
def expectAssertAlts : List String :=
  ["toBeVisible", "toHaveText", "toHaveValue", "toContainText", "toBe",
   "toHaveCSS", "toBeChecked", "toBeEnabled", "toBeDisabled"]

/-- Attempt at closing the lazy capture: `\s*\)\.(assert)\s*\(([^)]*)\)`. -/
def expectCloseAt (acc : Chars) (cs : Chars) : Option (String × String × String) := do
  let cs1 := wsStar cs
  let cs1 ← dropLit ").".data cs1
  altLit (fun assertName cs2 => do
      let cs2 := wsStar cs2
      let cs2 ← dropLit "(".data cs2
      let (args, cs2) := takeClass0 (fun c => !(c == ')')) cs2
      let _ ← dropLit ")".data cs2
      some (String.mk acc.reverse, assertName, args))
    expectAssertAlts cs1

/-- The lazy `(.*?)\s*\)\.(assert)\s*\(([^)]*)\)` tail of `EXPECT_PATTERN`:
grow the captured expression one character at a time, trying the closing
part first (shortest match wins). -/
def expectLazyLoop (acc : Chars) : Chars → Option (String × String × String)
  | [] => expectCloseAt acc []
  | c :: rest =>
    match expectCloseAt acc (c :: rest) with
    | some r => some r
    | none => expectLazyLoop (c :: acc) rest

/-- `EXPECT_PATTERN`:
`await\s+expect\s*\(\s*(.*?)\s*\)\.(toBeVisible|...)\s*\(([^)]*)\)`. -/
def matchExpectAt (cs : Chars) : Option (String × String × String) := do
  let cs ← dropLit "await".data cs
  let cs ← wsPlus cs
  let cs ← dropLit "expect".data cs
  let cs := wsStar cs
  let cs ← dropLit "(".data cs
  let cs := wsStar cs
  expectLazyLoop [] cs

/-- `CONST_PATTERN`: `const\s+(\w+)\s*=\s*['"`]([^'"`]+)['"`]`. -/
def matchConstAt (cs : Chars) : Option (String × String) := do
  let cs ← dropLit "const".data cs
  let cs ← wsPlus cs
  let (varName, cs) ← takeClass1 isWordChar cs
  let cs := wsStar cs
  let cs ← dropLit "=".data cs
  let cs := wsStar cs
  let cs ← dropQuote cs
  let (value, cs) ← takeClass1 (fun c => !(isQuoteChar c)) cs
  let _ ← dropQuote cs
  some (varName, value)

/-! ## Locator parsing (`parser.ts` lines 50-175) -/

/-- `<fname>\s*\(\s*['"`]([^'"`]+)['"`]\s*\)` — the shape shared by
`getByTestId`, `getByLabel`, `getByPlaceholder`, `getByText` and `locator`. -/
def matchCallQuotedAt (fname : String) (cs : Chars) : Option String := do
  let cs ← dropLit fname.data cs
  let cs := wsStar cs
  let cs ← dropLit "(".data cs
  let cs := wsStar cs
  let cs ← dropQuote cs
  let (v, cs) ← takeClass1 (fun c => !(isQuoteChar c)) cs
  let cs ← dropQuote cs
  let cs := wsStar cs
  let _ ← dropLit ")".data cs
  some v

/-- `getByRole\s*\(\s*['"`](\w+)['"`]\s*(?:,\s*\{([^}]+)\})?\s*\)`
(`{` and `}` are code points 123 and 125). -/
def matchRoleAt (cs : Chars) : Option (String × Option String) := do
  let cs ← dropLit "getByRole".data cs
  let cs := wsStar cs
  let cs ← dropLit "(".data cs
  let cs := wsStar cs
  let cs ← dropQuote cs
  let (role, cs) ← takeClass1 isWordChar cs
  let cs ← dropQuote cs
  let cs := wsStar cs
  match
    (do
      let cs1 ← dropLit ",".data cs
      let cs1 := wsStar cs1
      let cs1 ← dropCode 123 cs1
      let (opts, cs1) ← takeClass1 (fun c => !(c.toNat == 125)) cs1
      let cs1 ← dropCode 125 cs1
      let cs1 := wsStar cs1
      let _ ← dropLit ")".data cs1
      some (role, some opts))
  with
  | some r => some r
  | none => do
    let _ ← dropLit ")".data cs
    some (role, (none : Option String))

/-- `name:\s*['"`]([^'"`]+)['"`]` inside a role options blob. -/
def matchNameOptAt (cs : Chars) : Option String := do
  let cs ← dropLit "name:".data cs
  let cs := wsStar cs
  let cs ← dropQuote cs
  let (v, cs) ← takeClass1 (fun c => !(isQuoteChar c)) cs
  let _ ← dropQuote cs
  some v

/-- `exact:\s*(true|false)` inside a role options blob. -/
def matchExactOptAt (cs : Chars) : Option Bool := do
  let cs ← dropLit "exact:".data cs
  let cs := wsStar cs
  match dropLit "true".data cs with
  | some _ => some true
  | none =>
    match dropLit "false".data cs with
    | some _ => some false
    | none => none

/-- `/^[a-z0-9-_]+$/i` — the bare-literal test-id shape. -/
def isTestIdLike (s : String) : Bool :=
  !s.isEmpty && s.data.all (fun c => c.isAlphanum || c == '-' || c == '_')

/-- `parseLocator` from `parser.ts`: try each locator-constructor pattern in
source order, then fall back to classifying a bare quoted literal. -/
def parseLocator (expression : String) : Option LocatorInfo :=
  if expression = "" then none
  else
    let trimmed := jsTrim expression
    let cs := trimmed.data
    match searchA (matchCallQuotedAt "getByTestId") cs with
    | some v => some ⟨.testid, v, {}, trimmed⟩
    | none =>
    match searchA matchRoleAt cs with
    | some (role, optsRaw) =>
      let options : LocOptions :=
        match optsRaw with
        | none => {}
        | some o => { name := searchA matchNameOptAt o.data,
                      exact := searchA matchExactOptAt o.data }
      some ⟨.role, role, options, trimmed⟩
    | none =>
    match searchA (matchCallQuotedAt "getByLabel") cs with
    | some v => some ⟨.label, v, {}, trimmed⟩
    | none =>
    match searchA (matchCallQuotedAt "getByPlaceholder") cs with
    | some v => some ⟨.placeholder, v, {}, trimmed⟩
    | none =>
    match searchA (matchCallQuotedAt "getByText") cs with
    | some v => some ⟨.text, v, {}, trimmed⟩
    | none =>
    match searchA (matchCallQuotedAt "locator") cs with
    | some v => some ⟨.css, v, {}, trimmed⟩
    | none =>
    match cs with
    | c :: _ =>
      if isQuoteChar c then
        let value := String.mk ((cs.drop 1).dropLast)
        if isTestIdLike value then some ⟨.testid, value, {}, trimmed⟩
        else some ⟨.css, value, {}, trimmed⟩
      else none
    | [] => none

/-- `parseExpectLocator` from `parser.ts`: a `page.`-expression goes through
`parseLocator`; otherwise `^(\w+)(?:\.(\w+))?$` yields a variable reference. -/
def parseExpectLocator (expression : String) : Option LocatorInfo :=
  if strContains expression "page." then parseLocator expression
  else
    match takeClass1 isWordChar expression.data with
    | some (v, rest) =>
      match rest with
      | [] => some ⟨.css, v, { isVariable := true }, expression⟩
      | '.' :: rest2 =>
        match takeClass1 isWordChar rest2 with
        | some (_, []) => some ⟨.css, v, { isVariable := true }, expression⟩
        | _ => none
      | _ => none
    | none => none

/-! ## Tokenization (`parser.ts` lines 184-307) -/

/-- `replace(/^['"`]|['"`]$/g, "")`: strip one leading and one trailing
quote character. -/
def stripQuotes (s : String) : String :=
  let l := s.data
  let l := match l with
    | c :: rest => if isQuoteChar c then rest else l
    | [] => l
  let l := match l.getLast? with
    | some c => if isQuoteChar c then l.dropLast else l
    | none => l
  String.mk l

/-- `x?.replace(...) || null` followed by the `value && value !== ""` check:
a stripped-empty argument becomes `null`. -/
def jsStripOrNone (s : String) : Option String :=
  let v := stripQuotes s
  if v = "" then none else some v

/-- The nested action ternary of the `ACTION_CHAIN_PATTERN` branch. -/
def actionOfChain (act : String) : ActionKind :=
  if act = "fill" then .fill
  else if act = "type" then .type
  else if act = "click" then .click
  else if act = "check" then .check
  else if act = "textContent" then .textContent
  else .other

/-- The cast `varActionMatch[2] as ActionToken["action"]`: at runtime the
stored value is whichever alternative of `VARIABLE_ACTION_PATTERN` matched. -/
def actionOfString (act : String) : ActionKind :=
  if act = "click" then .click
  else if act = "fill" then .fill
  else if act = "type" then .type
  else if act = "check" then .check
  else if act = "uncheck" then .uncheck
  else if act = "press" then .press
  else if act = "hover" then .hover
  else if act = "dblclick" then .dblclick
  else if act = "textContent" then .textContent
  else if act = "innerText" then .innerText
  else if act = "inputValue" then .inputValue
  else .other

/-- `tokenizeLine` from `parser.ts`: skip blank/comment/import/test lines,
then try the seven statement patterns in source order. -/
def tokenizeLine (line : String) (lineNumber : Nat) : Option ActionToken :=
  let trimmed := jsTrim line
  if trimmed = "" || jsStartsWith trimmed "//" || jsStartsWith trimmed "/*" then none
  else if jsStartsWith trimmed "import " || jsStartsWith trimmed "test("
      || jsStartsWith trimmed "test.describe" then none
  else
    let cs := line.data
    match searchA matchGotoAt cs with
    | some url =>
      some { lineNumber, rawCode := trimmed, actor := "page", action := .goto,
             locator := none, value := some url, isAssertion := false }
    | none =>
    match searchA matchWaitUrlAt cs with
    | some pat =>
      some { lineNumber, rawCode := trimmed, actor := "page", action := .waitForURL,
             locator := none, value := some pat, isAssertion := false }
    | none =>
    match searchA matchVariableAt cs with
    | some (varName, ctor, args) =>
      some { lineNumber, rawCode := trimmed, actor := "page", action := .assign,
             locator := parseLocator (ctor ++ "(" ++ args ++ ")"),
             value := none, isAssertion := false, variableName := some varName }
    | none =>
    match searchA matchChainAt cs with
    | some (ctor, args, act, actArgs) =>
      some { lineNumber, rawCode := trimmed, actor := "page",
             action := actionOfChain act,
             locator := parseLocator (ctor ++ "(" ++ args ++ ")"),
             value := jsStripOrNone actArgs, isAssertion := false }
    | none =>
    match searchA matchVarActionAt cs with
    | some (varName, act, args) =>
      some { lineNumber, rawCode := trimmed, actor := varName,
             action := actionOfString act, locator := none,
             value := jsStripOrNone args, isAssertion := false }
    | none =>
    match searchA matchExpectAt cs with
    | some (inner, _assertName, args) =>
      some { lineNumber, rawCode := trimmed, actor := "page", action := .expect,
             locator := parseExpectLocator inner,
             value := jsStripOrNone args, isAssertion := true }
    | none => none

/-- `tokenize` from `parser.ts`: line-by-line, 1-based line numbers. -/
def tokenize (rawCode : String) : List ActionToken :=
  ((jsSplitLines rawCode).enum.filterMap
    (fun p => tokenizeLine p.2 (p.1 + 1)))

/-! ## Clustering (`parser.ts` lines 316-475) -/

/-- `isAuthRelated` from `parser.ts`. -/
def authKeywords : List String :=
  ["email", "password", "login", "signin", "sign-in", "username", "auth", "credential"]

def isAuthRelated : Option LocatorInfo → Bool
  | none => false
  | some locator =>
    let value := jsToLower locator.value
    let name := match locator.options.name with
      | some n => jsToLower n
      | none => ""
    authKeywords.any (fun kw => strContains value kw || strContains name kw)

/-- `isContainerElement` from `parser.ts`. -/
def containerKeywords : List String :=
  ["menu", "dropdown", "modal", "dialog", "popup", "profile", "nav", "sidebar"]

def isContainerElement : Option LocatorInfo → Bool
  | none => false
  | some locator =>
    let value := jsToLower locator.value
    let name := match locator.options.name with
      | some n => jsToLower n
      | none => ""
    containerKeywords.any (fun kw => strContains value kw || strContains name kw)

/-- Rendering of `token.value` inside a template literal (`null` for `none`,
as JS string interpolation prints it). -/
def optStr (v : Option String) : String := v.getD "null"

/-- `generateClusterIntent` from `parser.ts`. -/
def generateClusterIntent (c : Cluster) : String :=
  match c.type with
  | .NAVIGATION =>
    match c.tokens.find? (fun t => t.action = ActionKind.goto) with
    | some gotoToken => "Navigate to " ++ optStr gotoToken.value
    | none => "Navigate"
  | .AUTHENTICATION => "Authenticate user / Login flow"
  | .FORM_SUBMISSION => "Fill form fields"
  | .MENU_INTERACTION =>
    let clickTokens := c.tokens.filter (fun t => t.action = ActionKind.click)
    if 2 ≤ clickTokens.length then
      let menu := match clickTokens.head? >>= ActionToken.locator with
        | some l => l.value
        | none => "menu"
      let act := match clickTokens.getLast? >>= ActionToken.locator with
        | some l => l.value
        | none => "item"
      "Open " ++ menu ++ " and select " ++ act
    else "Menu interaction"
  | .VERIFICATION => "Verify expected state"
  | .GENERIC => "Perform actions"

/-- The mutable loop state of `cluster`: finished clusters, the open cluster
and the running cluster index. -/
structure ClusterAcc where
  clusters : List Cluster
  current : Cluster
  idx : Nat
deriving DecidableEq

/-- Sealing a cluster: its `intent` is computed at the moment it closes. -/
def sealCluster (c : Cluster) : Cluster := { c with intent := generateClusterIntent c }

/-- `if (currentCluster.tokens.length > 0) { seal; push; clusterIndex++ }`. -/
def closeCurrent (acc : ClusterAcc) : List Cluster × Nat :=
  if acc.current.tokens.isEmpty then (acc.clusters, acc.idx)
  else (acc.clusters ++ [sealCluster acc.current], acc.idx + 1)

/-- `currentCluster.tokens.push(token)`. -/
def pushTok (acc : ClusterAcc) (t : ActionToken) : ClusterAcc :=
  { acc with current := { acc.current with tokens := acc.current.tokens ++ [t] } }

/-- Close the current cluster (when non-empty) and open a fresh one of the
given type (`clusters.push(...); currentCluster = {...}`). -/
def startNew (acc : ClusterAcc) (ty : ClusterType) (intent : String)
    (toks : List ActionToken) : ClusterAcc :=
  { clusters := (closeCurrent acc).1,
    current := { id := "cluster_" ++ toString (closeCurrent acc).2, type := ty,
                 intent := intent, tokens := toks, assertions := [] },
    idx := (closeCurrent acc).2 }

/-- One iteration of the clustering loop (`prev` is `tokens[i-1]`,
present exactly when `i > 0`). -/
def clusterStep (prev : Option ActionToken) (acc : ClusterAcc) (token : ActionToken) :
    ClusterAcc :=
  -- Rule 1: navigation always starts a new cluster
  if token.action = ActionKind.goto then
    startNew acc .NAVIGATION ("Navigate to " ++ optStr token.value) [token]
  -- Rule 2: assertions belong to the current cluster
  else if token.isAssertion then
    { acc with current := { acc.current with
        tokens := acc.current.tokens ++ [token],
        assertions := acc.current.assertions ++ [token] } }
  -- Rule 3: auth pattern
  else if isAuthRelated token.locator then
    pushTok
      (if acc.current.type ≠ ClusterType.AUTHENTICATION then
        startNew acc .AUTHENTICATION "Login flow" []
      else acc) token
  -- Rule 4: menu interaction pattern
  else if token.action = ActionKind.click ∧
      (match prev with
       | some p => p.action == ActionKind.click && isContainerElement p.locator
       | none => false) = true then
    pushTok { acc with current := { acc.current with type := .MENU_INTERACTION } } token
  -- Rule 5: form submission pattern
  else if token.action = ActionKind.fill ∨ token.action = ActionKind.type then
    pushTok
      (if acc.current.type ≠ ClusterType.FORM_SUBMISSION ∧
          acc.current.type ≠ ClusterType.AUTHENTICATION then
        startNew acc .FORM_SUBMISSION "Form input" []
      else acc) token
  -- Default: add to current cluster
  else
    pushTok acc token

/-- The clustering loop over the token list, threading the previous token. -/
def clusterGo (acc : ClusterAcc) (prev : Option ActionToken) :
    List ActionToken → ClusterAcc
  | [] => acc
  | t :: ts => clusterGo (clusterStep prev acc t) (some t) ts

/-- `cluster` from `parser.ts`. -/
def cluster (tokens : List ActionToken) : List Cluster :=
  let init : ClusterAcc :=
    { clusters := [],
      current := { id := "cluster_0", type := .GENERIC, intent := "",
                   tokens := [], assertions := [] },
      idx := 0 }
  let acc := clusterGo init none tokens
  (closeCurrent acc).1

/-! ## Test-data extraction (`parser.ts` lines 484-526) -/

/-- `\.(fill|type)\s*\([^,]+,\s*VAR\s*\)` (the per-variable usage regex). -/
def matchFillUsageAt (meth varName : String) (cs : Chars) : Option Unit := do
  let cs ← dropLit ("." ++ meth).data cs
  let cs := wsStar cs
  let cs ← dropLit "(".data cs
  let (_, cs) ← takeClass1 (fun c => !(c == ',')) cs
  let cs ← dropLit ",".data cs
  let cs := wsStar cs
  let cs ← dropLit varName.data cs
  let cs := wsStar cs
  let _ ← dropLit ")".data cs
  some ()

/-- The `.*VAR` tail of `expect.*VAR` (no `s` flag: may not cross a newline). -/
def searchNoNewline (varName : String) : Chars → Option Unit
  | [] => (dropLit varName.data []).map (fun _ => ())
  | c :: rest =>
    match dropLit varName.data (c :: rest) with
    | some _ => some ()
    | none => if c == '\n' then none else searchNoNewline varName rest

/-- `expect.*VAR`. -/
def matchExpectUsageAt (varName : String) (cs : Chars) : Option Unit := do
  let cs ← dropLit "expect".data cs
  searchNoNewline varName cs

/-- `extractTestData` from `parser.ts`: collect non-locator `const` string
declarations, then classify each by scanning the whole script for fill/type
or assertion usage. -/
def extractTestData (rawCode : String) : List TestDataItem :=
  let lines := jsSplitLines rawCode
  let base := lines.foldl (fun acc line =>
    match searchA matchConstAt line.data with
    | some (varName, value) =>
      let isLocatorAssignment :=
        strContains line "page." && (strContains line "locator" || strContains line "getBy")
      if isLocatorAssignment then acc
      else acc ++ [{ variableName := varName, value := value,
                     type := "string", usage := Usage.other }]
    | none => acc) []
  base.map (fun item =>
    let fillUsage := (searchA (matchFillUsageAt "fill" item.variableName) rawCode.data).isSome
    let typeUsage := (searchA (matchFillUsageAt "type" item.variableName) rawCode.data).isSome
    let expectUsage := (searchA (matchExpectUsageAt item.variableName) rawCode.data).isSome
    if fillUsage || typeUsage then { item with usage := Usage.fill }
    else if expectUsage then { item with usage := Usage.assertion }
    else item)

/-- `parseRawCode` from `parser.ts`. -/
structure ParseResult where
  tokens : List ActionToken
  clusters : List Cluster
  testData : List TestDataItem
deriving DecidableEq

def parseRawCode (rawCode : String) : ParseResult :=
  { tokens := tokenize rawCode,
    clusters := cluster (tokenize rawCode),
    testData := extractTestData rawCode }

/-! ## Reconnaissance data model (`types.ts`, Phase I) -/

/-- `LocatorEntry` from `types.ts`. -/
structure LocatorEntry where
  propertyName : String
  selectorType : SelectorType
  selectorValue : String
  selectorOptions : Option LocOptions := none
  rawCode : String := ""
  lineNumber : Nat := 0
deriving DecidableEq

/-- `MethodEntry` from `types.ts`. -/
structure MethodEntry where
  methodName : String
  parameters : List String := []
  returnType : String := "void"
  lineNumber : Nat := 0
deriving DecidableEq

/-- `PageObjectData` from `types.ts`. -/
structure PageObjectData where
  className : String
  filePath : String := ""
  baseClass : Option String := none
  locators : List LocatorEntry := []
  methods : List MethodEntry := []
  fixtureAlias : Option String := none
  imports : List String := []
deriving DecidableEq

/-- `PageObjectIndex`: a JS object keyed by class name, modelled as an
association list in insertion order (`Object.entries` iterates in that
order). -/
abbrev PageObjectIndex := List (String × PageObjectData)

/-- `SelectorMapping` from `types.ts` (confidence as `ℚ`). -/
structure SelectorMapping where
  selector : LocatorInfo
  targetClass : String
  targetProperty : String
  isNewProperty : Bool
  confidence : ℚ
  reasoning : String := ""
deriving DecidableEq

/-! ## Mapping engine (`mapper.ts`) -/

/-- `locator.selectorOptions?.name` (undefined propagates to undefined). -/
def selOptName : Option LocOptions → Option String
  | none => none
  | some o => o.name

/-- The inner locator scan of `directHitSearch` for one indexed class.
The first branch fires on plain value equality; the role branch (kept from
the source) additionally requires equal values, so it is subsumed by the
first branch and can never fire on its own. -/
def directHitLocators (selector : LocatorInfo) (className : String) :
    List LocatorEntry → Option SelectorMapping
  | [] => none
  | loc :: rest =>
    if loc.selectorValue = selector.value then
      some { selector := selector, targetClass := className,
             targetProperty := loc.propertyName, isNewProperty := false,
             confidence := 1,
             reasoning := "Direct hit: Selector " ++ selector.value ++ " found in "
               ++ className ++ "." ++ loc.propertyName }
    else if selector.type = SelectorType.role ∧ loc.selectorType = SelectorType.role ∧
        selector.value = loc.selectorValue ∧
        selector.options.name = selOptName loc.selectorOptions then
      some { selector := selector, targetClass := className,
             targetProperty := loc.propertyName, isNewProperty := false,
             confidence := 1,
             reasoning := "Direct hit: Role selector " ++ selector.value ++ " with name "
               ++ optStr selector.options.name ++ " found in "
               ++ className ++ "." ++ loc.propertyName }
    else directHitLocators selector className rest

/-- `directHitSearch` from `mapper.ts`. -/
def directHitSearch (selector : LocatorInfo) : PageObjectIndex → Option SelectorMapping
  | [] => none
  | (className, poData) :: rest =>
    match directHitLocators selector className poData.locators with
    | some m => some m
    | none => directHitSearch selector rest

/-- `anchorInference` from `mapper.ts` (the `orphanToken` argument is unused
in the source as well; it is kept for shape). -/
def anchorInference (_orphanToken : Option ActionToken)
    (anchorToken : Option ActionToken) (pageObjectIndex : PageObjectIndex) :
    Option String :=
  match anchorToken with
  | none => none
  | some anchor =>
    match anchor.locator with
    | none => none
    | some anchorLoc =>
      (pageObjectIndex.find? (fun p =>
        p.2.locators.any (fun loc => loc.selectorValue == anchorLoc.value))).map
        (fun p => p.1)

/-- Insert one space at every lower-to-upper camel boundary
(`replace(/([a-z])([A-Z])/g, "$1 $2")`). -/
def camelSpace : Chars → Chars
  | [] => []
  | [c] => [c]
  | c1 :: c2 :: rest =>
    if c1.isLower && c2.isUpper then c1 :: ' ' :: camelSpace (c2 :: rest)
    else c1 :: camelSpace (c2 :: rest)

/-- `replace(/Suf$/, rep)`: substitute a suffix when present. -/
def replaceSuffix (s suf rep : String) : String :=
  if jsEndsWith s suf then String.mk (s.data.take (s.data.length - suf.data.length)) ++ rep
  else s

/-- `camelToWords` from `mapper.ts`. -/
def camelToWords (str : String) : List String :=
  let cleaned :=
    replaceSuffix (replaceSuffix (replaceSuffix (replaceSuffix str "Page" "")
      "Btn" "button") "Txtbx" "textbox") "Lbl" "label"
  let spaced := String.mk (camelSpace cleaned.data)
  let dashed := String.mk (spaced.data.map (fun c => if c == '-' || c == '_' then ' ' else c))
  (jsSplitWS (jsToLower dashed)).filter (fun w => 0 < w.length)

/-- `generateResponsibilityProfile` from `mapper.ts`. -/
def generateResponsibilityProfile (poData : PageObjectData) : List String :=
  let k0 := camelToWords poData.className
  let k1 := poData.locators.foldl (fun acc loc =>
    acc ++ camelToWords loc.propertyName
        ++ jsSplitClass (fun c => c == '-' || c == '_') (jsToLower loc.selectorValue)) k0
  let k2 := poData.methods.foldl (fun acc m => acc ++ camelToWords m.methodName) k1
  jsDedup k2

/-- `extractSelectorKeywords` from `mapper.ts`. -/
def extractSelectorKeywords (locator : LocatorInfo) : List String :=
  let selectorWords :=
    (jsSplitClass (fun c => c == '-' || c == '_' || c.isWhitespace)
      (jsToLower locator.value)).filter (fun w => 0 < w.length)
  let roleWords :=
    if locator.type = SelectorType.role ∧ jsTruthyStr locator.options.name = true then
      match locator.options.name with
      | some n => jsSplitWS (jsToLower n)
      | none => []
    else []
  selectorWords ++ roleWords

/-- `calculateOverlapScore` from `mapper.ts` (Jaccard-like set overlap). -/
def calculateOverlapScore (keywords1 keywords2 : List String) : ℚ :=
  let set1 := jsDedup keywords1
  let set2 := jsDedup keywords2
  let intersection := set1.filter (fun w => decide (w ∈ set2))
  let union := jsDedup (set1 ++ set2)
  if 0 < union.length then (intersection.length : ℚ) / (union.length : ℚ) else 0

/-- One scored candidate (`{className, score, reasoning}`). -/
structure ScoreEntry where
  className : String
  score : ℚ
  reasoning : String
deriving DecidableEq

/-- The global-element keyword list used inside `semanticScoring`. -/
def globalKeywordsScoring : List String :=
  ["header", "nav", "footer", "sidebar", "theme", "profile", "menu", "logout"]

/-- Stable descending insertion by score
(`scores.sort((a, b) => b.score - a.score)`; JS sort is stable, so equal
scores keep their original relative order). -/
def insertDescByScore (x : ScoreEntry) : List ScoreEntry → List ScoreEntry
  | [] => [x]
  | y :: ys => if y.score < x.score then x :: y :: ys else y :: insertDescByScore x ys

def sortDescByScore : List ScoreEntry → List ScoreEntry
  | [] => []
  | x :: xs => insertDescByScore x (sortDescByScore xs)

/-- `semanticScoring` from `mapper.ts` (the `toFixed(2)` decimal rendering in
the reasoning string is approximated by `toString` of the rational score). -/
def semanticScoring (orphan : LocatorInfo) (pageObjectIndex : PageObjectIndex)
    (anchorClass : Option String := none) : List ScoreEntry :=
  let orphanKeywords := extractSelectorKeywords orphan
  let scores := pageObjectIndex.map (fun p =>
    let className := p.1
    let profile := generateResponsibilityProfile p.2
    let base := calculateOverlapScore orphanKeywords profile
    let r0 := "Base score: " ++ toString base ++ " (keyword overlap)"
    let (s1, r1) :=
      if anchorClass = some className then (base + 1/2, r0 ++ " + 0.5 anchor boost")
      else (base, r0)
    let isGlobalElement := orphanKeywords.any (fun kw => decide (kw ∈ globalKeywordsScoring))
    let isLayoutPage := strContains (jsToLower className) "layout"
                     || strContains (jsToLower className) "base"
    let (s2, r2) :=
      if isGlobalElement && isLayoutPage then (s1 + 1/5, r1 ++ " + 0.2 global element boost")
      else (s1, r1)
    ({ className := className, score := s2, reasoning := r2 } : ScoreEntry))
  sortDescByScore scores

/-- The global-element keyword list used inside `applyTieBreakers`
(the source repeats the list without `"logout"`). -/
def globalKeywordsTieBreak : List String :=
  ["header", "nav", "footer", "sidebar", "theme", "profile", "menu"]

/-- `pageObjectIndex[name]?.locators.length || 0`. -/
def locatorCountOf (pageObjectIndex : PageObjectIndex) (name : String) : Nat :=
  match pageObjectIndex.find? (fun p => p.1 = name) with
  | some p => p.2.locators.length
  | none => 0

/-- `applyTieBreakers` from `mapper.ts`. -/
def applyTieBreakers (candidates : List ScoreEntry) (orphan : LocatorInfo)
    (pageObjectIndex : PageObjectIndex) : String :=
  match candidates with
  | [] => "UnknownPage"
  | top :: restCands =>
    match restCands.head? with
    | none => top.className
    | some second =>
      if 1/10 < top.score - second.score then top.className
      else
        match (if (extractSelectorKeywords orphan).any
                  (fun kw => decide (kw ∈ globalKeywordsTieBreak)) then
                candidates.find? (fun c => strContains (jsToLower c.className) "layout")
              else none) with
        | some layoutCandidate => layoutCandidate.className
        | none =>
          if locatorCountOf pageObjectIndex second.className
              < locatorCountOf pageObjectIndex top.className then top.className
          else if locatorCountOf pageObjectIndex top.className
              < locatorCountOf pageObjectIndex second.className then second.className
          else top.className

/-- `generatePropertyName` from `mapper.ts`. -/
def generatePropertyName (locator : LocatorInfo) : String :=
  let baseName :=
    if locator.type = SelectorType.role ∧ jsTruthyStr locator.options.name = true then
      locator.options.name.getD locator.value
    else locator.value
  let words :=
    (jsSplitClass (fun c => c == '-' || c == '_' || c.isWhitespace)
      (jsToLower baseName)).filter (fun w => 0 < w.length)
  match words with
  | [] => "element"
  | w :: ws => w ++ String.join (ws.map String.capitalize)

/-- The anchor class used by `mapOrphan` at token position `tokenIndex`:
the inference over `tokens[tokenIndex - 1]` (present only when
`tokenIndex > 0`). -/
def anchorClassAt (tokens : List ActionToken) (tokenIndex : Nat)
    (pageObjectIndex : PageObjectIndex) : Option String :=
  anchorInference (tokens.get? tokenIndex)
    (if 0 < tokenIndex then tokens.get? (tokenIndex - 1) else none) pageObjectIndex

/-- `mapOrphan` from `mapper.ts`. -/
def mapOrphan (orphan : LocatorInfo) (tokens : List ActionToken) (tokenIndex : Nat)
    (pageObjectIndex : PageObjectIndex) : SelectorMapping :=
  match directHitSearch orphan pageObjectIndex with
  | some directHit => directHit
  | none =>
    let anchorClass := anchorClassAt tokens tokenIndex pageObjectIndex
    let scores := semanticScoring orphan pageObjectIndex anchorClass
    let targetClass := applyTieBreakers scores orphan pageObjectIndex
    let winningScore := scores.find? (fun s => s.className = targetClass)
    let propertyName := generatePropertyName orphan
    { selector := orphan, targetClass := targetClass, targetProperty := propertyName,
      isNewProperty := true,
      confidence := jsOrRat (winningScore.map ScoreEntry.score) (1/2),
      reasoning := jsOrStr (winningScore.map ScoreEntry.reasoning)
        "Default mapping (no match found)" }

/-- The deduplication key `type:value:JSON.stringify(options)` of
`mapAllOrphans`, modelled as the underlying triple (the JSON rendering is
injective on the options record). -/
abbrev SelKey := SelectorType × String × LocOptions

def selKeyOf (l : LocatorInfo) : SelKey := (l.type, l.value, l.options)

/-- The loop of `mapAllOrphans`: walk the token list with its index,
skipping tokens without a locator and selectors already seen. -/
def mapAllGo (tokens : List ActionToken) (pageObjectIndex : PageObjectIndex) :
    List ActionToken → Nat → List SelKey → List SelectorMapping
  | [], _, _ => []
  | t :: rest, i, seen =>
    match t.locator with
    | none => mapAllGo tokens pageObjectIndex rest (i + 1) seen
    | some l =>
      if selKeyOf l ∈ seen then mapAllGo tokens pageObjectIndex rest (i + 1) seen
      else mapOrphan l tokens i pageObjectIndex ::
        mapAllGo tokens pageObjectIndex rest (i + 1) (selKeyOf l :: seen)

/-- `mapAllOrphans` from `mapper.ts`. -/
def mapAllOrphans (tokens : List ActionToken) (pageObjectIndex : PageObjectIndex) :
    List SelectorMapping :=
  mapAllGo tokens pageObjectIndex tokens 0 []

/-! ## Reconnaissance (`reconnaissance.ts`)

The filesystem is modelled as an oracle record.  The regex-driven parsing of
individual page-object/fixture files is modelled by oracle functions keyed by
file path (the control flow around them is translated from the source). -/

/-- `repoType` of `RepoContext`. -/
inductive RepoType where
  | STANDARD_POM | COMPONENT_BASED | UNKNOWN
deriving DecidableEq

/-- `RepoContext` from `types.ts`. -/
structure RepoContext where
  repoRoot : String
  repoType : RepoType
  pageObjectDir : Option String
  testDir : Option String
  usesFixtures : Bool
  fixtureFile : Option String
  configFile : Option String
  baseClass : Option String
deriving DecidableEq

/-- `locatorStyle` of `StyleVector`. -/
inductive LocatorStyle where
  | WrapperClass | Native | Getter
deriving DecidableEq

/-- `StyleVector` from `types.ts` (visibility/method style kept as the
literal strings the source stores). -/
structure StyleVector where
  locatorStyle : LocatorStyle
  wrapperClassName : Option String
  baseClassName : Option String
  propertyVisibility : String
  methodStyle : String
  importStatements : List String
deriving DecidableEq

/-- `FixtureEntry` from `types.ts`. -/
structure FixtureEntry where
  className : String
  filePath : String
  instantiation : String
deriving DecidableEq

/-- `FixtureRegistry`, as an insertion-ordered association list. -/
abbrev FixtureRegistry := List (String × FixtureEntry)

/-- `fs.existsSync` / `fs.statSync(..).isDirectory()`. -/
structure FileSystem where
  pathExists : String → Bool
  isDir : String → Bool

/-- `path.join` (the source only joins non-empty relative segments). -/
def joinPath (a b : String) : String := a ++ "/" ++ b

/-- `PAGE_OBJECT_CANDIDATES` from `reconnaissance.ts`. -/
def PAGE_OBJECT_CANDIDATES : List String :=
  ["pages", "page-objects", "po", "src/pages", "lib/pages", "src/page-objects"]

/-- `TEST_DIR_CANDIDATES` from `reconnaissance.ts`. -/
def TEST_DIR_CANDIDATES : List String :=
  ["tests", "test", "e2e", "spec", "src/tests", "__tests__"]

/-- `FIXTURE_PATTERNS` from `reconnaissance.ts`. -/
def FIXTURE_PATTERNS : List String :=
  ["fixture.ts", "fixtures.ts", "test.extend.ts", "base.ts"]

/-- First candidate that exists as a directory under `root`
(stable array order = priority order). -/
def findFirstDir (fsys : FileSystem) (root : String) : List String → Option String
  | [] => none
  | c :: cs =>
    if fsys.pathExists (joinPath root c) && fsys.isDir (joinPath root c) then some c
    else findFirstDir fsys root cs

/-- First candidate file that exists under `dir` (no directory check,
matching the fixture-file loop). -/
def findFirstFile (fsys : FileSystem) (dir : String) : List String → Option String
  | [] => none
  | c :: cs =>
    if fsys.pathExists (joinPath dir c) then some c
    else findFirstFile fsys dir cs

/-- `discoverStructure` from `reconnaissance.ts`.  A missing repository root
throws (`Except.error`); everything else degrades. -/
def discoverStructure (fsys : FileSystem) (repoRoot : String) :
    Except String RepoContext :=
  if fsys.pathExists repoRoot = false then
    Except.error ("Repository not found: " ++ repoRoot)
  else
    let poDir := findFirstDir fsys repoRoot PAGE_OBJECT_CANDIDATES
    let testDir := findFirstDir fsys repoRoot TEST_DIR_CANDIDATES
    let fixture :=
      match poDir with
      | none => none
      | some d => (findFirstFile fsys (joinPath repoRoot d) FIXTURE_PATTERNS).map
          (fun pat => joinPath d pat)
    let configFile :=
      if fsys.pathExists (joinPath repoRoot "playwright.config.ts") then
        some "playwright.config.ts"
      else none
    Except.ok
      { repoRoot := repoRoot,
        repoType := if poDir.isSome then RepoType.STANDARD_POM else RepoType.UNKNOWN,
        pageObjectDir := poDir,
        testDir := testDir,
        usesFixtures := fixture.isSome,
        fixtureFile := fixture,
        configFile := configFile,
        baseClass := none }

/-- The per-file facts that `detectPatterns` extracts with its regexes
(wrapper-class matches, getter test, base-class match, visibility of the
first native match, import lines).  Extraction itself is an oracle. -/
structure FileStyleFacts where
  wrapperName : Option String
  hasGetter : Bool
  baseName : Option String
  visibility : Option String
  imports : List String

/-- The oracle environment of Reconnaissance: the filesystem, directory
listings, and the regex-driven extraction from file contents. -/
structure ReconEnv where
  fsys : FileSystem
  readdir : String → List String
  styleFacts : String → FileStyleFacts
  parsePageObject : String → Option PageObjectData
  fixtureDefs : String → List (String × String)
  fixtureTypeDefs : String → List (String × String)

/-- `detectPatterns` from `reconnaissance.ts`: sample the first three
non-fixture `.ts` files; per independent attribute the last sampled file
that exhibits it wins; imports are accumulated with deduplication. -/
def detectPatterns (env : ReconEnv) (repoRoot : String) (context : RepoContext) :
    StyleVector :=
  let style : StyleVector :=
    { locatorStyle := .Native, wrapperClassName := none, baseClassName := none,
      propertyVisibility := "public", methodStyle := "Atomic", importStatements := [] }
  match context.pageObjectDir with
  | none => style
  | some dir =>
    let poDir := joinPath repoRoot dir
    let files := ((env.readdir poDir).filter
      (fun f => jsEndsWith f ".ts" && !(decide (f ∈ FIXTURE_PATTERNS)))).take 3
    if files.isEmpty then style
    else
      files.foldl (fun st file =>
        let facts := env.styleFacts (joinPath poDir file)
        let st :=
          match facts.wrapperName with
          | some w => { st with locatorStyle := .WrapperClass, wrapperClassName := some w }
          | none => st
        let st := if facts.hasGetter then { st with locatorStyle := .Getter } else st
        let st :=
          match facts.baseName with
          | some b => { st with baseClassName := some b }
          | none => st
        let st :=
          match facts.visibility with
          | some v => { st with propertyVisibility := v }
          | none => st
        { st with importStatements := (facts.imports.foldl
            (fun acc imp => if imp ∈ acc then acc else acc ++ [imp])
            st.importStatements) }) style

/-- JS `index[className] = po`: overwrite in place or append. -/
def assocSet {β : Type} : List (String × β) → String → β → List (String × β)
  | [], k, v => [(k, v)]
  | (k0, v0) :: rest, k, v =>
    if k0 = k then (k0, v) :: rest else (k0, v0) :: assocSet rest k v

/-- `indexPageObjects` from `reconnaissance.ts`. -/
def indexPageObjects (env : ReconEnv) (repoRoot : String) (context : RepoContext) :
    PageObjectIndex :=
  match context.pageObjectDir with
  | none => []
  | some dir =>
    let poDir := joinPath repoRoot dir
    let files := (env.readdir poDir).filter
      (fun f => jsEndsWith f ".ts" && !(decide (f ∈ FIXTURE_PATTERNS)))
    files.foldl (fun idx file =>
      match env.parsePageObject (joinPath poDir file) with
      | some po => assocSet idx po.className po
      | none => idx) []

/-- `parseFixtureRegistry` from `reconnaissance.ts`: first pass extracts
injection definitions; the type-declaration pass only fills names not
already present. -/
def parseFixtureRegistry (env : ReconEnv) (repoRoot : String) (context : RepoContext) :
    FixtureRegistry :=
  if context.usesFixtures = false then []
  else
    match context.fixtureFile with
    | none => []
    | some ff =>
      let fixturePath := joinPath repoRoot ff
      if env.fsys.pathExists fixturePath = false then []
      else
        let reg1 := (env.fixtureDefs fixturePath).foldl
          (fun reg p => assocSet reg p.1
            { className := p.2, filePath := ff, instantiation := "new " ++ p.2 ++ "(page)" })
          []
        (env.fixtureTypeDefs fixturePath).foldl
          (fun reg p =>
            if p.1 ≠ "" ∧ p.2 ≠ "" ∧ (reg.find? (fun q => q.1 = p.1)).isNone then
              reg ++ [(p.1, { className := p.2, filePath := ff,
                              instantiation := "new " ++ p.2 ++ "(page)" })]
            else reg)
          reg1

/-- The result record of `performReconnaissance`. -/
structure ReconResult where
  repoContext : RepoContext
  styleVector : StyleVector
  pageObjectIndex : PageObjectIndex
  fixtureRegistry : FixtureRegistry

/-- `performReconnaissance` from `reconnaissance.ts`.  The throw of
`discoverStructure` propagates; otherwise the four artefacts are produced
and a truthy detected base class is copied into the context. -/
def performReconnaissance (env : ReconEnv) (repoRoot : String) :
    Except String ReconResult :=
  match discoverStructure env.fsys repoRoot with
  | Except.error e => Except.error e
  | Except.ok repoContext =>
    let styleVector := detectPatterns env repoRoot repoContext
    let pageObjectIndex := indexPageObjects env repoRoot repoContext
    let fixtureRegistry := parseFixtureRegistry env repoRoot repoContext
    let repoContext :=
      if jsTruthyStr styleVector.baseClassName then
        { repoContext with baseClass := styleVector.baseClassName }
      else repoContext
    Except.ok
      { repoContext := repoContext, styleVector := styleVector,
        pageObjectIndex := pageObjectIndex, fixtureRegistry := fixtureRegistry }

/-! ## Code application (`generator.ts`, `applyPageObjectMod`) -/

/-- `PageObjectMod` from `types.ts`. -/
structure PageObjectMod where
  filePath : String
  className : String
  newProperties : List String
  newMethods : List String
  insertionPoint : Nat
deriving DecidableEq

/-- Number of leading blank-after-trim lines (the forward skip
`while (insertIndex < lines.length && lines[insertIndex].trim() === "")`). -/
def countLeadingBlank : List String → Nat
  | [] => 0
  | l :: ls => if jsTrim l = "" then countLeadingBlank ls + 1 else 0

/-- The block of lines spliced in by `applyPageObjectMod`: a labeled block of
new properties, then a labeled block of new methods (each block only when
non-empty). -/
def modInsertBlock (mod : PageObjectMod) : List String :=
  (if mod.newProperties.isEmpty then []
   else ["", "  // Auto-generated properties"] ++ mod.newProperties) ++
  (if mod.newMethods.isEmpty then []
   else ["", "  // Auto-generated methods"] ++ mod.newMethods)

/-- `applyPageObjectMod` from `generator.ts`.  `insertIndex` starts at
`insertionPoint - 1`; with `insertionPoint = 0` the JS code evaluates
`lines[-1].trim()` and throws a `TypeError` (`lines` is never empty), which
the embedding renders as `none`. -/
def applyPageObjectMod (fileContent : String) (mod : PageObjectMod) : Option String :=
  let lines := jsSplitLines fileContent
  if mod.insertionPoint = 0 then none
  else
    let start := mod.insertionPoint - 1
    let insertIndex := start + countLeadingBlank (lines.drop start)
    some (jsJoin "\n" (lines.take insertIndex ++ modInsertBlock mod ++ lines.drop insertIndex))

/-! ## Verification loop (`verifier.ts`)

Test execution is an out-of-process effect; it is modelled by an oracle
`results : Nat → TestResult` giving the outcome of each (1-based) attempt.
Error classification is regex matching over the diagnostic stream; it is
modelled by a classifier oracle.  The loop itself, and `determineFix`,
are translated from the source. -/

/-- `TestResult` from `types.ts`. -/
structure TestResult where
  passed : Bool
  stdout : String := ""
  stderr : String := ""
  duration : Nat := 0

/-- The `type` field of `ClassifiedError`. -/
inductive ErrorType where
  | ElementNotFound | ElementIntercepted | StaleElement
  | AssertionFailed | Timeout | Unknown
deriving DecidableEq

/-- `ClassifiedError` from `types.ts`. -/
structure ClassifiedError where
  type : ErrorType
  message : String
  locator : Option String := none
  suggestion : Option String := none
deriving DecidableEq

/-- The `type` field of `FixAction`. -/
inductive FixType where
  | ADD_WAIT | MODIFY_CLICK | RE_QUERY | ADD_POLL | NONE
deriving DecidableEq

/-- `FixAction` from `types.ts`. -/
structure FixAction where
  type : FixType
  code : String
  targetFile : String
deriving DecidableEq

/-- `determineFix` from `verifier.ts`: each classification maps to at most
one deterministic repair; `Unknown` has none. -/
def determineFix (error : ClassifiedError) (testFilePath : String) : Option FixAction :=
  match error.type with
  | .ElementNotFound =>
    match error.locator with
    | some loc =>
      some { type := .ADD_WAIT,
             code := "await " ++ loc ++ ".waitFor(\x7b state: \x27visible\x27 \x7d);",
             targetFile := testFilePath }
    | none =>
      some { type := .ADD_WAIT,
             code := "await page.waitForLoadState(\x27networkidle\x27);",
             targetFile := testFilePath }
  | .ElementIntercepted =>
    if strContains error.message "Backdrop" ||
       (match error.suggestion with
        | some s => strContains s "backdrop"
        | none => false) then
      some { type := .ADD_WAIT,
             code := "await page.waitForSelector(\x27.MuiBackdrop-root\x27, \x7b state: \x27hidden\x27 \x7d);",
             targetFile := testFilePath }
    else
      some { type := .MODIFY_CLICK, code := ".click(\x7b force: true \x7d)",
             targetFile := testFilePath }
  | .StaleElement =>
    some { type := .RE_QUERY, code := "// Re-query the element", targetFile := testFilePath }
  | .AssertionFailed =>
    some { type := .ADD_POLL,
           code := "await expect.poll(async () => /* condition */, \x7b timeout: 15000 \x7d).toBeTruthy();",
           targetFile := testFilePath }
  | .Timeout =>
    some { type := .ADD_WAIT,
           code := "// Consider breaking down the test or increasing timeout",
           targetFile := testFilePath }
  | .Unknown => none

/-- The result record of `verifyAndFix`. -/
structure VerifyResult where
  passed : Bool
  attempts : Nat
  errors : List ClassifiedError
  fixes : List FixAction
deriving DecidableEq

/-- The `for (attempt = 1; attempt <= maxRetries; attempt++)` loop of
`verifyAndFix`.  `results attempt` is the oracle outcome of the attempt and
`classify` the stderr classifier.  The second component counts how many test
executions were actually performed (instrumentation, not part of the
source's return value). -/
def verifyGo (results : Nat → TestResult) (classify : String → ClassifiedError)
    (testFilePath : String) (maxRetries : Nat) :
    Nat → Nat → List ClassifiedError → List FixAction → VerifyResult × Nat
  | _, 0, errors, fixes =>
    (⟨false, maxRetries, errors, fixes⟩, 0)
  | attempt, remaining + 1, errors, fixes =>
    if (results attempt).passed then (⟨true, attempt, errors, fixes⟩, 1)
    else
      let error := classify (results attempt).stderr
      match determineFix error testFilePath with
      | none => (⟨false, maxRetries, errors ++ [error], fixes⟩, 1)
      | some fix =>
        let rn := verifyGo results classify testFilePath maxRetries
          (attempt + 1) remaining (errors ++ [error]) (fixes ++ [fix])
        (rn.1, rn.2 + 1)

/-- `verifyAndFix` from `verifier.ts` (default `maxRetries = 3` in the
source). -/
def verifyAndFix (results : Nat → TestResult) (classify : String → ClassifiedError)
    (testFilePath : String) (maxRetries : Nat := 3) : VerifyResult :=
  (verifyGo results classify testFilePath maxRetries 1 maxRetries [] []).1

/-- The number of test executions `verifyAndFix` performs. -/
def verifyRuns (results : Nat → TestResult) (classify : String → ClassifiedError)
    (testFilePath : String) (maxRetries : Nat := 3) : Nat :=
  (verifyGo results classify testFilePath maxRetries 1 maxRetries [] []).2

/-! ## Spec-side predicates and concrete instances used by the theorems -/

/-- All tokens of a clustering state, in order: finished clusters first,
then the open cluster. -/
def joinedTokens (acc : ClusterAcc) : List ActionToken :=
  (acc.clusters.map Cluster.tokens).flatten ++ acc.current.tokens

/-- The first token of a cluster is a navigation (`goto`) operation. -/
def firstIsGoto (c : Cluster) : Bool :=
  match c.tokens.head? with
  | some t => t.action == ActionKind.goto
  | none => false

/-- The navigation-boundary property of one cluster: a `NAVIGATION` cluster
starts with a `goto` token, and a cluster starting with a `goto` token is
`NAVIGATION` or `MENU_INTERACTION` (the latter because rule 4 retypes the
open cluster in place). -/
def navBoundaryOk (c : Cluster) : Bool :=
  (!(c.type == ClusterType.NAVIGATION) || firstIsGoto c) &&
  (!(firstIsGoto c) || (c.type == ClusterType.NAVIGATION
                        || c.type == ClusterType.MENU_INTERACTION))

/-- Count of keys in a list that are new relative to `seen`, threading the
seen-set exactly like the deduplication loop of `mapAllOrphans`. -/
def newKeysCount (seen : List SelKey) : List SelKey → Nat
  | [] => 0
  | k :: ks => if k ∈ seen then newKeysCount seen ks else newKeysCount (k :: seen) ks + 1

/-- A navigation token (counterexample input for the navigation-boundary
claim). -/
def navTok5 : ActionToken :=
  { lineNumber := 1, rawCode := "await page.goto(url)", actor := "page",
    action := .goto, locator := none, value := some "https://app.example",
    isAssertion := false }

/-- A click on a container-like (`menu`) element. -/
def menuTok5 : ActionToken :=
  { lineNumber := 2, rawCode := "", actor := "page", action := .click,
    locator := some { type := .testid, value := "user-menu", options := {},
                      fullExpression := "getByTestId(user-menu)" },
    value := none, isAssertion := false }

/-- A click following the container click. -/
def itemTok5 : ActionToken :=
  { lineNumber := 3, rawCode := "", actor := "page", action := .click,
    locator := some { type := .testid, value := "settings", options := {},
                      fullExpression := "getByTestId(settings)" },
    value := none, isAssertion := false }

/-- An indexed role locator entry `button` named `Login` (direct-hit
counterexample data). -/
def cLoc1 : LocatorEntry :=
  { propertyName := "loginBtn", selectorType := .role, selectorValue := "button",
    selectorOptions := some { name := some "Login" } }

def cPo1 : PageObjectData := { className := "LoginPage", locators := [cLoc1] }

def cIdx1 : PageObjectIndex := [("LoginPage", cPo1)]

/-- A role selector `button` named `Submit`: same value as `cLoc1` but a
different `name` qualifier. -/
def cOrphan1 : LocatorInfo :=
  { type := .role, value := "button", options := { name := some "Submit" },
    fullExpression := "getByRole(button)" }

/-- The mapping `directHitSearch` returns for `cOrphan1` against `cIdx1`. -/
def cHit1 : SelectorMapping :=
  { selector := cOrphan1, targetClass := "LoginPage", targetProperty := "loginBtn",
    isNewProperty := false, confidence := 1,
    reasoning := "Direct hit: Selector button found in LoginPage.loginBtn" }

/-- An index with a single class sharing no keywords with `cOrphan4`
(zero-overlap counterexample data). -/
def cIdx4 : PageObjectIndex := [("Zzz", { className := "Zzz" })]

def cOrphan4 : LocatorInfo :=
  { type := .css, value := "foo", options := {}, fullExpression := "locator(foo)" }

/-- The scenario input text of the specification, as written: a single line
holding the three statements. -/
def scenarioOneLine : String :=
  "const email = \x27a@b.com\x27; await page.getByLabel(\x27Email\x27).fill(email); await page.getByRole(\x27button\x27, \x7bname:\x27Submit\x27\x7d).click();"

/-- The scenario input with each statement on its own line. -/
def scenarioLines : String :=
  "const email = \x27a@b.com\x27;\nawait page.getByLabel(\x27Email\x27).fill(email);\nawait page.getByRole(\x27button\x27, \x7bname:\x27Submit\x27\x7d).click();"

/-- Concrete page-object file content for the splice witness. -/
def cContent9 : String := "class LoginPage \x7b\n\n  async login() \x7b\x7d\n\x7d"

/-- A staged modification inserting one property and one method at line 2. -/
def cMod9 : PageObjectMod :=
  { filePath := "login.page.ts", className := "LoginPage",
    newProperties := ["  readonly signInBtn;"],
    newMethods := ["  async signIn() \x7b\x7d"],
    insertionPoint := 2 }

/-- A staged modification with insertion line number `0` (splice
counterexample: the JS code crashes on `lines[-1].trim()`). -/
def cMod9zero : PageObjectMod :=
  { filePath := "a.ts", className := "A",
    newProperties := ["  readonly x;"], newMethods := [], insertionPoint := 0 }

/-- A filesystem on which nothing exists. -/
def fsNone : FileSystem := { pathExists := fun _ => false, isDir := fun _ => false }

/-- A filesystem on which only the path `/r` exists. -/
def fsRootOnly : FileSystem :=
  { pathExists := fun p => decide (p = "/r"), isDir := fun _ => true }

/-- Trivial extraction oracles over `fsNone`. -/
def envNone : ReconEnv :=
  { fsys := fsNone, readdir := fun _ => [],
    styleFacts := fun _ => ⟨none, false, none, none, []⟩,
    parsePageObject := fun _ => none,
    fixtureDefs := fun _ => [], fixtureTypeDefs := fun _ => [] }

/-- Trivial extraction oracles over `fsRootOnly`. -/
def envRootOnly : ReconEnv :=
  { fsys := fsRootOnly, readdir := fun _ => [],
    styleFacts := fun _ => ⟨none, false, none, none, []⟩,
    parsePageObject := fun _ => none,
    fixtureDefs := fun _ => [], fixtureTypeDefs := fun _ => [] }

/-- A run whose every attempt fails with an unclassifiable diagnostic:
`classifyUnknown` is what `classifyError` returns when no pattern matches. -/
def alwaysFailingRun : Nat → TestResult := fun _ => { passed := false }

def classifyUnknown : String → ClassifiedError :=
  fun stderr => { type := ErrorType.Unknown, message := stderr }

/-! ## Helper lemmas about the verification loop -/

/-- Whenever the loop exits unpassed, the reported `attempts` field is the
`maxRetries` bound (both the budget-exhausted exit and the no-fix `break`
return it verbatim). -/
theorem verifyGo_failed_attempts (results : Nat → TestResult)
    (classify : String → ClassifiedError) (file : String) (maxRetries : Nat) :
    ∀ remaining attempt errors fixes,
      (verifyGo results classify file maxRetries attempt remaining errors fixes).1.passed
          = false →
      (verifyGo results classify file maxRetries attempt remaining errors fixes).1.attempts
          = maxRetries := by
  intro remaining
  induction remaining with
  | zero => intro attempt errors fixes _; rfl
  | succ r ih =>
    intro attempt errors fixes h
    by_cases hp : (results attempt).passed
    · simp [verifyGo, hp] at h
    · simp only [verifyGo, hp, if_false, Bool.false_eq_true] at h ⊢
      cases hd : determineFix (classify (results attempt).stderr) file with
      | none => simp [hd]
      | some fix =>
        simp only [hd] at h ⊢
        exact ih _ _ _ h

/-- The loop performs at most `remaining` test executions, and ends passed,
or unpassed with either the budget exhausted or a final unfixable error. -/
theorem verifyGo_spec (results : Nat → TestResult)
    (classify : String → ClassifiedError) (file : String) (maxRetries : Nat) :
    ∀ remaining attempt errors fixes,
      (verifyGo results classify file maxRetries attempt remaining errors fixes).2
          ≤ remaining ∧
      ((verifyGo results classify file maxRetries attempt remaining errors fixes).1.passed
          = true ∨
       ((verifyGo results classify file maxRetries attempt remaining errors fixes).1.passed
          = false ∧
        ((verifyGo results classify file maxRetries attempt remaining errors fixes).2
            = remaining ∨
         ∃ e, (verifyGo results classify file maxRetries attempt remaining
                errors fixes).1.errors.getLast? = some e ∧
              determineFix e file = none))) := by
  intro remaining
  induction remaining with
  | zero =>
    intro attempt errors fixes
    exact ⟨Nat.le_refl 0, Or.inr ⟨rfl, Or.inl rfl⟩⟩
  | succ r ih =>
    intro attempt errors fixes
    by_cases hp : (results attempt).passed
    · simp [verifyGo, hp]
    · simp only [verifyGo, hp, if_false, Bool.false_eq_true]
      cases hd : determineFix (classify (results attempt).stderr) file with
      | none =>
        refine ⟨by simp, Or.inr ⟨rfl, Or.inr ?_⟩⟩
        exact ⟨classify (results attempt).stderr, by simp, hd⟩
      | some fix =>
        obtain ⟨h1, h2⟩ := ih (attempt + 1) (errors ++ [classify (results attempt).stderr])
          (fixes ++ [fix])
        refine ⟨by simpa using Nat.add_le_add_right h1 1, ?_⟩
        rcases h2 with h2 | ⟨h2, h3 | ⟨e, he, hfix⟩⟩
        · exact Or.inl h2
        · exact Or.inr ⟨h2, Or.inl (by simp [h3])⟩
        · exact Or.inr ⟨h2, Or.inr ⟨e, he, hfix⟩⟩

/-- C8: for every run, the verification loop performs at most `maxRetries`
test executions, and its outcome is exactly one of: passed; or unpassed
because the budget was exhausted or because the last classified error has no
available repair (`determineFix` returns nothing, which happens exactly for
`Unknown`). -/
theorem verify_loop_terminates (results : Nat → TestResult)
    (classify : String → ClassifiedError) (file : String) (maxRetries : Nat) :
    verifyRuns results classify file maxRetries ≤ maxRetries ∧
    ((verifyAndFix results classify file maxRetries).passed = true ∨
     ((verifyAndFix results classify file maxRetries).passed = false ∧
      (verifyRuns results classify file maxRetries = maxRetries ∨
       ∃ e, (verifyAndFix results classify file maxRetries).errors.getLast? = some e ∧
            determineFix e file = none))) :=
  verifyGo_spec results classify file maxRetries maxRetries 1 [] []

/-- C10: whenever `verifyAndFix` reports `passed = false`, its `attempts`
field equals the `maxRetries` parameter, regardless of how many test
executions actually ran (both failure exits return `attempts: maxRetries`). -/
theorem verify_failed_reports_maxRetries (results : Nat → TestResult)
    (classify : String → ClassifiedError) (file : String) (maxRetries : Nat)
    (h : (verifyAndFix results classify file maxRetries).passed = false) :
    (verifyAndFix results classify file maxRetries).attempts = maxRetries :=
  verifyGo_failed_attempts results classify file maxRetries maxRetries 1 [] [] h

/-- C10 witness: a run that fails on its first attempt with an unfixable
(`Unknown`) error performs one test execution, yet reports
`attempts = 3 = maxRetries`. -/
theorem verify_failed_reports_maxRetries_witness :
    (verifyAndFix alwaysFailingRun classifyUnknown "gen.spec.ts" 3).passed = false ∧
    (verifyAndFix alwaysFailingRun classifyUnknown "gen.spec.ts" 3).attempts = 3 ∧
    verifyRuns alwaysFailingRun classifyUnknown "gen.spec.ts" 3 = 1 :=
  ⟨rfl, verify_failed_reports_maxRetries alwaysFailingRun classifyUnknown "gen.spec.ts" 3 rfl,
   rfl⟩

/-! ## Helper lemmas about clustering -/

/-- Sealing only rewrites the intent string. -/
theorem sealCluster_tokens (c : Cluster) : (sealCluster c).tokens = c.tokens := rfl

/-- Closing the current cluster preserves the concatenation of all tokens. -/
theorem closeCurrent_join (acc : ClusterAcc) :
    ((closeCurrent acc).1.map Cluster.tokens).flatten =
      (acc.clusters.map Cluster.tokens).flatten ++ acc.current.tokens := by
  unfold closeCurrent
  split_ifs with h
  · simp_all [List.isEmpty_iff]
  · simp [sealCluster]

/-- Each clustering step appends exactly the processed token. -/
theorem clusterStep_join (prev : Option ActionToken) (acc : ClusterAcc)
    (t : ActionToken) :
    joinedTokens (clusterStep prev acc t) = joinedTokens acc ++ [t] := by
  unfold clusterStep
  split_ifs <;>
    simp [joinedTokens, startNew, pushTok, closeCurrent_join, sealCluster]

/-- The clustering loop appends exactly the consumed tokens. -/
theorem clusterGo_join (ts : List ActionToken) :
    ∀ (acc : ClusterAcc) (prev : Option ActionToken),
      joinedTokens (clusterGo acc prev ts) = joinedTokens acc ++ ts := by
  induction ts with
  | nil => intro acc prev; simp [clusterGo]
  | cons t ts ih =>
    intro acc prev
    simp [clusterGo, ih, clusterStep_join]

/-- Closing never emits an empty cluster. -/
theorem closeCurrent_nonempty (acc : ClusterAcc)
    (h : ∀ c ∈ acc.clusters, c.tokens ≠ []) :
    ∀ c ∈ (closeCurrent acc).1, c.tokens ≠ [] := by
  unfold closeCurrent
  split_ifs with he
  · exact h
  · intro c hc
    rcases List.mem_append.mp hc with hc | hc
    · exact h c hc
    · simp only [List.mem_singleton] at hc
      subst hc
      simp only [sealCluster_tokens]
      simpa [List.isEmpty_iff] using he

/-- A clustering step preserves non-emptiness of all finished clusters. -/
theorem clusterStep_clusters_nonempty (prev : Option ActionToken)
    (acc : ClusterAcc) (t : ActionToken)
    (h : ∀ c ∈ acc.clusters, c.tokens ≠ []) :
    ∀ c ∈ (clusterStep prev acc t).clusters, c.tokens ≠ [] := by
  unfold clusterStep
  split_ifs <;>
    simp only [startNew, pushTok] <;>
    first
      | exact closeCurrent_nonempty acc h
      | exact h

/-- The clustering loop preserves non-emptiness of all finished clusters. -/
theorem clusterGo_clusters_nonempty (ts : List ActionToken) :
    ∀ (acc : ClusterAcc) (prev : Option ActionToken),
      (∀ c ∈ acc.clusters, c.tokens ≠ []) →
      ∀ c ∈ (clusterGo acc prev ts).clusters, c.tokens ≠ [] := by
  induction ts with
  | nil => intro acc prev h; exact h
  | cons t ts ih =>
    intro acc prev h
    exact ih _ _ (clusterStep_clusters_nonempty prev acc t h)

/-- C2: concatenating the tokens of all produced clusters, in cluster order,
reproduces the input token sequence exactly, and no produced cluster is
empty. -/
theorem cluster_partitions (tokens : List ActionToken) :
    ((cluster tokens).map Cluster.tokens).flatten = tokens ∧
    (cluster tokens).all (fun c => !c.tokens.isEmpty) = true := by
  constructor
  · unfold cluster
    rw [closeCurrent_join]
    have h := clusterGo_join tokens
      ⟨[], { id := "cluster_0", type := .GENERIC, intent := "",
             tokens := [], assertions := [] }, 0⟩ none
    simpa [joinedTokens] using h
  · rw [List.all_eq_true]
    intro c hc
    have hne : c.tokens ≠ [] := by
      revert hc
      unfold cluster
      intro hc
      refine closeCurrent_nonempty _ ?_ c hc
      exact clusterGo_clusters_nonempty tokens _ none (by simp)
    simpa [List.isEmpty_iff] using hne

/-! ## Helper lemmas for the navigation-boundary property -/

/-- Sealing does not affect the navigation-boundary property. -/
theorem navBoundaryOk_seal (c : Cluster) :
    navBoundaryOk (sealCluster c) = navBoundaryOk c := rfl

/-- Closing the current cluster preserves the property on all finished
clusters. -/
theorem closeCurrent_nav (acc : ClusterAcc)
    (hcl : ∀ c ∈ acc.clusters, navBoundaryOk c = true)
    (hcur : navBoundaryOk acc.current = true) :
    ∀ c ∈ (closeCurrent acc).1, navBoundaryOk c = true := by
  unfold closeCurrent
  split_ifs with he
  · exact hcl
  · intro c hc
    rcases List.mem_append.mp hc with hc | hc
    · exact hcl c hc
    · simp only [List.mem_singleton] at hc
      subst hc
      simpa [navBoundaryOk_seal] using hcur

/-- A `MENU_INTERACTION` cluster always satisfies the property. -/
theorem navBoundaryOk_menu (c : Cluster)
    (h : c.type = ClusterType.MENU_INTERACTION) :
    navBoundaryOk c = true := by
  cases hfg : firstIsGoto c <;> simp [navBoundaryOk, h, hfg]

/-- Appending a non-`goto` token to a cluster satisfying the property keeps
it (covers `pushTok` and the rule-2 assertion append). -/
theorem navBoundaryOk_push (c : Cluster) (t : ActionToken)
    (hcur : navBoundaryOk c = true) (ht : ¬ t.action = ActionKind.goto)
    (c' : Cluster) (hty : c'.type = c.type) (htk : c'.tokens = c.tokens ++ [t]) :
    navBoundaryOk c' = true := by
  unfold navBoundaryOk firstIsGoto at hcur ⊢
  rw [hty, htk]
  cases htoks : c.tokens with
  | nil =>
    rw [htoks] at hcur
    simp only [List.nil_append, List.head?_cons]
    have hne : (t.action == ActionKind.goto) = false := by
      simpa using ht
    rw [hne]
    simp only [Bool.or_false, Bool.not_false, Bool.true_or, Bool.and_true] at hcur ⊢
    simpa using hcur
  | cons x xs =>
    rw [htoks] at hcur
    simpa using hcur

/-- One clustering step preserves the navigation-boundary invariant. -/
theorem clusterStep_nav (prev : Option ActionToken) (acc : ClusterAcc)
    (t : ActionToken)
    (hcl : ∀ c ∈ acc.clusters, navBoundaryOk c = true)
    (hcur : navBoundaryOk acc.current = true) :
    (∀ c ∈ (clusterStep prev acc t).clusters, navBoundaryOk c = true) ∧
    navBoundaryOk (clusterStep prev acc t).current = true := by
  unfold clusterStep
  split_ifs with h1 h2 h3 h4 h5 h6
  -- Rule 1: new NAVIGATION cluster headed by the goto token
  · refine ⟨closeCurrent_nav acc hcl hcur, ?_⟩
    simp [startNew, navBoundaryOk, firstIsGoto, h1]
  -- Rule 2: assertion appended to the current cluster
  · exact ⟨hcl, navBoundaryOk_push acc.current t hcur h1 _ rfl rfl⟩
  -- Rule 3, fresh AUTHENTICATION cluster
  · refine ⟨closeCurrent_nav acc hcl hcur, ?_⟩
    exact navBoundaryOk_push
      (startNew acc .AUTHENTICATION "Login flow" []).current t (by rfl) h1 _ rfl rfl
  -- Rule 3, already AUTHENTICATION
  · exact ⟨hcl, navBoundaryOk_push acc.current t hcur h1 _ rfl rfl⟩
  -- Rule 4: retype in place to MENU_INTERACTION
  · exact ⟨hcl, navBoundaryOk_menu _ rfl⟩
  -- Rule 5, fresh FORM_SUBMISSION cluster
  · refine ⟨closeCurrent_nav acc hcl hcur, ?_⟩
    exact navBoundaryOk_push
      (startNew acc .FORM_SUBMISSION "Form input" []).current t (by rfl) h1 _ rfl rfl
  -- Rule 5, already FORM_SUBMISSION/AUTHENTICATION
  · exact ⟨hcl, navBoundaryOk_push acc.current t hcur h1 _ rfl rfl⟩
  -- Default
  · exact ⟨hcl, navBoundaryOk_push acc.current t hcur h1 _ rfl rfl⟩

/-- The clustering loop preserves the navigation-boundary invariant. -/
theorem clusterGo_nav (ts : List ActionToken) :
    ∀ (acc : ClusterAcc) (prev : Option ActionToken),
      (∀ c ∈ acc.clusters, navBoundaryOk c = true) →
      navBoundaryOk acc.current = true →
      (∀ c ∈ (clusterGo acc prev ts).clusters, navBoundaryOk c = true) ∧
      navBoundaryOk (clusterGo acc prev ts).current = true := by
  induction ts with
  | nil => intro acc prev hcl hcur; exact ⟨hcl, hcur⟩
  | cons t ts ih =>
    intro acc prev hcl hcur
    obtain ⟨hcl', hcur'⟩ := clusterStep_nav prev acc t hcl hcur
    exact ih _ _ hcl' hcur'

/-- C5 (amended): every `NAVIGATION` cluster starts with a `goto` token, and
a cluster starting with a `goto` token is of type `NAVIGATION` or
`MENU_INTERACTION` (rule 4 can retype a navigation-started cluster in place;
no other type can start with `goto`). -/
theorem cluster_nav_boundary (tokens : List ActionToken) :
    (cluster tokens).all navBoundaryOk = true := by
  rw [List.all_eq_true]
  intro c hc
  revert hc
  unfold cluster
  intro hc
  refine closeCurrent_nav _ ?_ ?_ c hc
  · exact (clusterGo_nav tokens
      ⟨[], { id := "cluster_0", type := .GENERIC, intent := "",
             tokens := [], assertions := [] }, 0⟩ none (by simp) (by rfl)).1
  · exact (clusterGo_nav tokens
      ⟨[], { id := "cluster_0", type := .GENERIC, intent := "",
             tokens := [], assertions := [] }, 0⟩ none (by simp) (by rfl)).2

/-- C5 counterexample: on `[goto, click(menu), click(item)]` the single
produced cluster has type `MENU_INTERACTION` yet its first token is the
navigation (`goto`) operation, refuting "no cluster of any other type has a
first token whose action is the navigation operation". -/
theorem cluster_nav_boundary_counterexample :
    (cluster [navTok5, menuTok5, itemTok5]).map
      (fun c => (c.type, c.tokens.head?.map ActionToken.action)) =
    [(ClusterType.MENU_INTERACTION, some ActionKind.goto)] := by
  rfl

/-! ## Helper lemmas for selector deduplication -/

/-- The mapping loop produces one mapping per key that is new relative to
the running seen-set. -/
theorem mapAllGo_length (tokens : List ActionToken) (index : PageObjectIndex) :
    ∀ (rest : List ActionToken) (i : Nat) (seen : List SelKey),
      (mapAllGo tokens index rest i seen).length =
      newKeysCount seen (rest.filterMap (fun t => t.locator.map selKeyOf)) := by
  intro rest
  induction rest with
  | nil => intro i seen; simp [mapAllGo, newKeysCount]
  | cons t rest ih =>
    intro i seen
    cases hl : t.locator with
    | none => simp [mapAllGo, hl, ih]
    | some l =>
      by_cases hm : selKeyOf l ∈ seen
      · simp [mapAllGo, hl, hm, ih, newKeysCount]
      · simp [mapAllGo, hl, hm, ih, newKeysCount]

/-- The seen-relative new-key count is the cardinality of the set
difference. -/
theorem newKeysCount_card (ks : List SelKey) :
    ∀ seen : List SelKey, newKeysCount seen ks = (ks.toFinset \ seen.toFinset).card := by
  induction ks with
  | nil => intro seen; simp [newKeysCount]
  | cons k ks ih =>
    intro seen
    by_cases hm : k ∈ seen
    · rw [newKeysCount]
      simp only [hm, if_true, ih seen, List.toFinset_cons]
      rw [Finset.insert_sdiff_of_mem _ (List.mem_toFinset.mpr hm)]
    · rw [newKeysCount]
      simp only [hm, if_false, ih (k :: seen), List.toFinset_cons]
      rw [Finset.insert_sdiff_of_not_mem _ (by simpa using hm),
        Finset.sdiff_insert]
      by_cases hk : k ∈ ks.toFinset \ seen.toFinset
      · rw [Finset.card_erase_of_mem hk, Finset.insert_eq_self.mpr hk]
        have hpos : 0 < (ks.toFinset \ seen.toFinset).card :=
          Finset.card_pos.mpr ⟨k, hk⟩
        omega
      · rw [Finset.erase_eq_of_not_mem hk, Finset.card_insert_of_not_mem hk]

/-- C7: the number of produced mappings is the number of distinct selector
keys `(kind, value, options)` among tokens carrying a locator — never the
raw token count. -/
theorem mapAllOrphans_dedup_count (tokens : List ActionToken)
    (index : PageObjectIndex) :
    (mapAllOrphans tokens index).length =
    ((tokens.filterMap (fun t => t.locator.map selKeyOf)).toFinset).card := by
  unfold mapAllOrphans
  rw [mapAllGo_length, newKeysCount_card]
  simp

/-! ## Helper lemmas for direct-hit search -/

/-- The locator scan of one class hits iff some entry has the selector's
value.  (The role-specific branch requires equal values as well, so it adds
nothing to the hit condition.) -/
theorem directHitLocators_isSome (selector : LocatorInfo) (cn : String) :
    ∀ locs : List LocatorEntry,
      (directHitLocators selector cn locs).isSome = true ↔
      ∃ loc ∈ locs, loc.selectorValue = selector.value := by
  intro locs
  induction locs with
  | nil => simp [directHitLocators]
  | cons loc rest ih =>
    unfold directHitLocators
    split_ifs with h1 h2
    · exact iff_of_true rfl ⟨loc, List.mem_cons_self loc rest, h1⟩
    · exact iff_of_true rfl ⟨loc, List.mem_cons_self loc rest, h2.2.2.1.symm⟩
    · rw [ih]
      constructor
      · rintro ⟨l, hl, he⟩
        exact ⟨l, List.mem_cons_of_mem _ hl, he⟩
      · rintro ⟨l, hl, he⟩
        rcases List.mem_cons.mp hl with h | h
        · subst h; exact absurd he h1
        · exact ⟨l, h, he⟩

/-- Any mapping the locator scan returns has confidence 1 and
`isNewProperty = false`. -/
theorem directHitLocators_some (selector : LocatorInfo) (cn : String) :
    ∀ (locs : List LocatorEntry) (m : SelectorMapping),
      directHitLocators selector cn locs = some m →
      m.confidence = 1 ∧ m.isNewProperty = false := by
  intro locs
  induction locs with
  | nil => intro m h; simp [directHitLocators] at h
  | cons loc rest ih =>
    intro m h
    unfold directHitLocators at h
    split_ifs at h
    · injection h with h'; subst h'; exact ⟨rfl, rfl⟩
    · injection h with h'; subst h'; exact ⟨rfl, rfl⟩
    · exact ih m h

/-- `directHitSearch` hits iff some indexed locator entry has the selector's
value. -/
theorem directHitSearch_isSome (selector : LocatorInfo) :
    ∀ index : PageObjectIndex,
      (directHitSearch selector index).isSome = true ↔
      ∃ p ∈ index, ∃ loc ∈ p.2.locators, loc.selectorValue = selector.value := by
  intro index
  induction index with
  | nil => simp [directHitSearch]
  | cons p rest ih =>
    unfold directHitSearch
    cases hl : directHitLocators selector p.1 p.2.locators with
    | some m =>
      refine iff_of_true rfl ⟨p, List.mem_cons_self p rest, ?_⟩
      have := (directHitLocators_isSome selector p.1 p.2.locators).mp (by rw [hl]; rfl)
      exact this
    | none =>
      rw [ih]
      constructor
      · rintro ⟨q, hq, hloc⟩
        exact ⟨q, List.mem_cons_of_mem _ hq, hloc⟩
      · rintro ⟨q, hq, hloc⟩
        rcases List.mem_cons.mp hq with h | h
        · subst h
          have := (directHitLocators_isSome selector q.1 q.2.locators).mpr hloc
          rw [hl] at this
          simp at this
        · exact ⟨q, h, hloc⟩

/-- Any mapping `directHitSearch` returns has confidence 1 and
`isNewProperty = false`. -/
theorem directHitSearch_some (selector : LocatorInfo) :
    ∀ (index : PageObjectIndex) (m : SelectorMapping),
      directHitSearch selector index = some m →
      m.confidence = 1 ∧ m.isNewProperty = false := by
  intro index
  induction index with
  | nil => intro m h; simp [directHitSearch] at h
  | cons p rest ih =>
    intro m h
    unfold directHitSearch at h
    cases hl : directHitLocators selector p.1 p.2.locators with
    | some m' =>
      rw [hl] at h
      injection h with h'
      subst h'
      exact directHitLocators_some selector p.1 p.2.locators _ hl
    | none =>
      rw [hl] at h
      exact ih m h

/-- C1 (amended): a selector is a direct hit exactly when its value equals
some indexed entry's value — regardless of selector kind and, for role
selectors, regardless of the `name` qualifier — and every direct hit is
returned by `mapOrphan` unchanged, with confidence 1.0 and
`isNewProperty = false`. -/
theorem direct_hit_characterization (selector : LocatorInfo)
    (index : PageObjectIndex) (tokens : List ActionToken) (i : Nat) :
    ((directHitSearch selector index).isSome = true ↔
      ∃ p ∈ index, ∃ loc ∈ p.2.locators, loc.selectorValue = selector.value) ∧
    ∀ m, directHitSearch selector index = some m →
      mapOrphan selector tokens i index = m ∧
      m.confidence = 1 ∧ m.isNewProperty = false := by
  refine ⟨directHitSearch_isSome selector index, ?_⟩
  intro m h
  refine ⟨by simp [mapOrphan, h], directHitSearch_some selector index m h⟩

/-- C1 witness: on `cIdx1`, the selector `cOrphan1` hits `LoginPage.loginBtn`
and `mapOrphan` reports it with confidence 1. -/
theorem direct_hit_characterization_witness :
    (directHitSearch cOrphan1 cIdx1).isSome = true ∧
    mapOrphan cOrphan1 [] 0 cIdx1 = cHit1 ∧
    cHit1.confidence = 1 ∧ cHit1.isNewProperty = false := by
  refine ⟨?_, ?_⟩
  · exact (direct_hit_characterization cOrphan1 cIdx1 [] 0).1.mpr
      ⟨("LoginPage", cPo1), by simp [cIdx1], cLoc1, by simp [cPo1], rfl⟩
  · exact (direct_hit_characterization cOrphan1 cIdx1 [] 0).2 cHit1 rfl

/-- C1 counterexample: `cOrphan1` is a role selector whose `name` qualifier
(`Submit`) differs from the indexed entry's (`Login`), yet it is a direct
hit: `mapOrphan` returns confidence 1.0 and `isNewProperty = false`.  This
refutes "a role-kind selector is a direct hit only when both its value and
its name qualifier match the indexed entry". -/
theorem direct_hit_name_mismatch_counterexample :
    cOrphan1.type = SelectorType.role ∧
    cOrphan1.options.name = some "Submit" ∧
    cIdx1.map (fun p => p.2.locators.map (fun loc => selOptName loc.selectorOptions))
      = [[some "Login"]] ∧
    (mapOrphan cOrphan1 [] 0 cIdx1).confidence = 1 ∧
    (mapOrphan cOrphan1 [] 0 cIdx1).isNewProperty = false :=
  ⟨rfl, rfl, rfl, rfl, rfl⟩

/-! ## Helper lemmas for semantic scoring and tie-breaking -/

theorem mem_insertDescByScore (x y : ScoreEntry) :
    ∀ l : List ScoreEntry, y ∈ insertDescByScore x l ↔ y = x ∨ y ∈ l := by
  intro l
  induction l with
  | nil => simp [insertDescByScore]
  | cons z zs ih =>
    unfold insertDescByScore
    split_ifs with h
    · simp
    · simp only [List.mem_cons, ih]
      tauto

theorem mem_sortDescByScore (y : ScoreEntry) :
    ∀ l : List ScoreEntry, y ∈ sortDescByScore l ↔ y ∈ l := by
  intro l
  induction l with
  | nil => simp [sortDescByScore]
  | cons z zs ih =>
    unfold sortDescByScore
    rw [mem_insertDescByScore, ih]
    simp

theorem insertDescByScore_length (x : ScoreEntry) :
    ∀ l : List ScoreEntry, (insertDescByScore x l).length = l.length + 1 := by
  intro l
  induction l with
  | nil => rfl
  | cons z zs ih =>
    unfold insertDescByScore
    split_ifs with h
    · rfl
    · simp [ih]

theorem sortDescByScore_length :
    ∀ l : List ScoreEntry, (sortDescByScore l).length = l.length := by
  intro l
  induction l with
  | nil => rfl
  | cons z zs ih =>
    unfold sortDescByScore
    rw [insertDescByScore_length, ih]
    rfl

/-- The scored candidate list is empty exactly when the index is empty. -/
theorem semanticScoring_eq_nil (orphan : LocatorInfo) (index : PageObjectIndex)
    (anchorClass : Option String) :
    semanticScoring orphan index anchorClass = [] ↔ index = [] := by
  constructor
  · intro h
    have hlen : (semanticScoring orphan index anchorClass).length = index.length := by
      unfold semanticScoring
      rw [sortDescByScore_length, List.length_map]
    rw [h] at hlen
    exact List.length_eq_zero.mp hlen.symm
  · intro h
    subst h
    rfl

/-- The tie-breaking winner is always one of the candidate class names. -/
theorem applyTieBreakers_mem (candidates : List ScoreEntry) (orphan : LocatorInfo)
    (index : PageObjectIndex) (h : candidates ≠ []) :
    applyTieBreakers candidates orphan index ∈ candidates.map ScoreEntry.className := by
  cases candidates with
  | nil => exact absurd rfl h
  | cons top rest =>
    unfold applyTieBreakers
    rcases hr : rest.head? with _ | second
    · simp only [hr]
      simp
    · have hsec : second ∈ rest := by
        cases rest with
        | nil => simp at hr
        | cons a t => injection hr with hr'; subst hr'; exact List.mem_cons_self _ _
      simp only [hr]
      by_cases hmargin : (1 : ℚ)/10 < top.score - second.score
      · rw [if_pos hmargin]; simp
      · rw [if_neg hmargin]
        by_cases hglob : ((extractSelectorKeywords orphan).any
            (fun kw => decide (kw ∈ globalKeywordsTieBreak))) = true
        · rw [if_pos hglob]
          cases hfind : (top :: rest).find?
              (fun c => strContains (jsToLower c.className) "layout") with
          | some layoutCandidate =>
            simp only [hfind]
            exact List.mem_map_of_mem ScoreEntry.className
              (List.mem_of_find?_eq_some hfind)
          | none =>
            simp only [hfind]
            show (if locatorCountOf index second.className
                    < locatorCountOf index top.className then top.className
                  else if locatorCountOf index top.className
                    < locatorCountOf index second.className then second.className
                  else top.className) ∈ List.map ScoreEntry.className (top :: rest)
            split_ifs
            · simp
            · exact List.mem_map_of_mem ScoreEntry.className
                (List.mem_cons_of_mem _ hsec)
            · simp
        · rw [if_neg hglob]
          show (if locatorCountOf index second.className
                  < locatorCountOf index top.className then top.className
                else if locatorCountOf index top.className
                  < locatorCountOf index second.className then second.className
                else top.className) ∈ List.map ScoreEntry.className (top :: rest)
          split_ifs
          · simp
          · exact List.mem_map_of_mem ScoreEntry.className
              (List.mem_cons_of_mem _ hsec)
          · simp

/-- When the target name occurs among the candidates, `find?` returns a
candidate carrying exactly that name. -/
theorem find_className (target : String) :
    ∀ scores : List ScoreEntry, target ∈ scores.map ScoreEntry.className →
      ∃ w ∈ scores, scores.find? (fun s => s.className = target) = some w ∧
        w.className = target := by
  intro scores
  induction scores with
  | nil => intro h; simp at h
  | cons s rest ih =>
    intro h
    by_cases hs : s.className = target
    · exact ⟨s, List.mem_cons_self s rest,
        List.find?_cons_of_pos _ (by simpa using hs), hs⟩
    · have h' : target ∈ rest.map ScoreEntry.className := by
        rcases List.mem_map.mp h with ⟨w, hw, hwt⟩
        rcases List.mem_cons.mp hw with h0 | h0
        · subst h0; exact absurd hwt hs
        · exact hwt ▸ List.mem_map_of_mem ScoreEntry.className h0
      obtain ⟨w, hw, hf, hcn⟩ := ih h'
      exact ⟨w, List.mem_cons_of_mem _ hw,
        by rw [List.find?_cons_of_neg _ (by simpa using hs)]; exact hf, hcn⟩

/-- C4 (amended): for every selector that is not a direct hit, the mapping
has `isNewProperty = true`; its confidence equals the winning candidate's
semantic score when that score is non-zero, and the fallback `0.5` is used
both when no candidate classes existed **and** when the winning score is `0`
(the JS `winningScore?.score || 0.5` treats a zero score as falsy). -/
theorem mapOrphan_new_property (orphan : LocatorInfo) (tokens : List ActionToken)
    (i : Nat) (index : PageObjectIndex)
    (h : directHitSearch orphan index = none) :
    (mapOrphan orphan tokens i index).isNewProperty = true ∧
    (((mapOrphan orphan tokens i index).confidence = 1/2 ∧
       (index = [] ∨
        ∃ w ∈ semanticScoring orphan index (anchorClassAt tokens i index),
          w.className = (mapOrphan orphan tokens i index).targetClass ∧
          w.score = 0)) ∨
     (∃ w ∈ semanticScoring orphan index (anchorClassAt tokens i index),
        w.className = (mapOrphan orphan tokens i index).targetClass ∧
        w.score ≠ 0 ∧
        (mapOrphan orphan tokens i index).confidence = w.score)) := by
  set sc := semanticScoring orphan index (anchorClassAt tokens i index) with hsc
  set tc := applyTieBreakers sc orphan index with htc
  have hnew : (mapOrphan orphan tokens i index).isNewProperty = true := by
    simp [mapOrphan, h]
  have hconf : (mapOrphan orphan tokens i index).confidence =
      jsOrRat ((sc.find? (fun s => s.className = tc)).map ScoreEntry.score) (1/2) := by
    simp [mapOrphan, h, hsc, htc]
  have htarget : (mapOrphan orphan tokens i index).targetClass = tc := by
    simp [mapOrphan, h, hsc, htc]
  refine ⟨hnew, ?_⟩
  by_cases hnil : sc = []
  · have hfind : sc.find? (fun s => s.className = tc) = none := by rw [hnil]; rfl
    left
    refine ⟨by rw [hconf, hfind]; rfl, Or.inl ?_⟩
    exact (semanticScoring_eq_nil orphan index (anchorClassAt tokens i index)).mp
      (hsc ▸ hnil)
  · have hmem : tc ∈ sc.map ScoreEntry.className :=
      applyTieBreakers_mem sc orphan index hnil
    obtain ⟨w, hw, hfind, hcn⟩ := find_className tc sc hmem
    by_cases hz : w.score = 0
    · left
      refine ⟨by rw [hconf, hfind]; simp [jsOrRat, hz], Or.inr ⟨w, hw, ?_, hz⟩⟩
      rw [htarget]; exact hcn
    · right
      exact ⟨w, hw, by rw [htarget]; exact hcn, hz,
        by rw [hconf, hfind]; simp [jsOrRat, hz]⟩

/-- C4 witness: the zero-overlap selector `cOrphan4` is not a direct hit in
`cIdx4`, and its mapping has `isNewProperty = true`. -/
theorem mapOrphan_new_property_witness :
    directHitSearch cOrphan4 cIdx4 = none ∧
    (mapOrphan cOrphan4 [] 0 cIdx4).isNewProperty = true :=
  ⟨rfl, (mapOrphan_new_property cOrphan4 [] 0 cIdx4 rfl).1⟩

/-- C4 counterexample: `cIdx4` has one candidate class, so candidates exist,
the winning semantic score is `0`, yet the mapping's confidence is `0.5`
instead of the winning score — refuting "the fallback value 0.5 used only
when no candidate classes existed". -/
theorem mapOrphan_zero_score_counterexample :
    cIdx4 ≠ [] ∧
    directHitSearch cOrphan4 cIdx4 = none ∧
    (semanticScoring cOrphan4 cIdx4 (anchorClassAt [] 0 cIdx4)).map ScoreEntry.score
      = [0] ∧
    (mapOrphan cOrphan4 [] 0 cIdx4).confidence = 1/2 := by
  have hscore : calculateOverlapScore (extractSelectorKeywords cOrphan4)
      (generateResponsibilityProfile { className := "Zzz" }) = 0 := by
    have h1 : extractSelectorKeywords cOrphan4 = ["foo"] := rfl
    have h2 : generateResponsibilityProfile { className := "Zzz" } = ["zzz"] := rfl
    rw [h1, h2]
    simp only [calculateOverlapScore]
    have hint : (jsDedup ["foo"]).filter (fun w => decide (w ∈ jsDedup ["zzz"])) = [] := rfl
    have hun : jsDedup (jsDedup ["foo"] ++ jsDedup ["zzz"]) = ["foo", "zzz"] := rfl
    rw [hint, hun]
    norm_num
  have hss : (semanticScoring cOrphan4 cIdx4 (anchorClassAt [] 0 cIdx4)).map
      ScoreEntry.score = [calculateOverlapScore (extractSelectorKeywords cOrphan4)
        (generateResponsibilityProfile { className := "Zzz" })] := rfl
  have hss0 : (semanticScoring cOrphan4 cIdx4 (anchorClassAt [] 0 cIdx4)).map
      ScoreEntry.score = [0] := by rw [hss, hscore]
  refine ⟨by simp [cIdx4], rfl, hss0, ?_⟩
  set sc := semanticScoring cOrphan4 cIdx4 (anchorClassAt [] 0 cIdx4) with hsc
  set tc := applyTieBreakers sc cOrphan4 cIdx4 with htc
  have hconf : (mapOrphan cOrphan4 [] 0 cIdx4).confidence =
      jsOrRat ((sc.find? (fun s => s.className = tc)).map ScoreEntry.score) (1/2) := by
    simp [mapOrphan, hsc, htc]
    rfl
  obtain ⟨e, he⟩ : ∃ e, sc = [e] := by
    have hlen : sc.length = 1 := by
      have := congrArg List.length hss0
      simpa using this
    exact List.length_eq_one.mp hlen
  have hescore : e.score = 0 := by
    rw [he] at hss0
    simpa using hss0
  have htce : tc = e.className := by rw [htc, he]; rfl
  have hfind : sc.find? (fun s => s.className = tc) = some e := by
    rw [he]
    exact List.find?_cons_of_pos _ (by simp [htce, he])
  rw [hconf, hfind]
  simp [jsOrRat, hescore]

/-! ## Reconnaissance degradation behaviour -/

/-- C3 (amended): a missing repository root makes `performReconnaissance`
throw (`Repository not found`); only when the root exists but no candidate
page-object directory is found does it degrade non-fatally to an `UNKNOWN`
classification with empty page-object index and fixture registry. -/
theorem reconnaissance_missing_root (env : ReconEnv) (root : String) :
    (env.fsys.pathExists root = false →
      performReconnaissance env root =
        Except.error ("Repository not found: " ++ root)) ∧
    (env.fsys.pathExists root = true →
      findFirstDir env.fsys root PAGE_OBJECT_CANDIDATES = none →
      ∃ r, performReconnaissance env root = Except.ok r ∧
        r.repoContext.repoType = RepoType.UNKNOWN ∧
        r.pageObjectIndex = [] ∧ r.fixtureRegistry = []) := by
  constructor
  · intro h
    unfold performReconnaissance discoverStructure
    rw [if_pos h]
  · intro hex hpo
    have hd : ∃ rc, discoverStructure env.fsys root = Except.ok rc ∧
        rc.repoType = RepoType.UNKNOWN ∧ rc.pageObjectDir = none ∧
        rc.usesFixtures = false := by
      simp only [discoverStructure]
      rw [if_neg (by simp [hex]), hpo]
      exact ⟨_, rfl, rfl, rfl, rfl⟩
    obtain ⟨rc, hrc, hty, hpod, hfix⟩ := hd
    have hstyle : detectPatterns env root rc =
        { locatorStyle := .Native, wrapperClassName := none, baseClassName := none,
          propertyVisibility := "public", methodStyle := "Atomic",
          importStatements := [] } := by
      unfold detectPatterns
      rw [hpod]
    have hidx : indexPageObjects env root rc = [] := by
      unfold indexPageObjects
      rw [hpod]
    have hreg : parseFixtureRegistry env root rc = [] := by
      unfold parseFixtureRegistry
      rw [hfix]
      simp
    unfold performReconnaissance
    rw [hrc]
    refine ⟨_, rfl, ?_, by simpa using hidx, by simpa using hreg⟩
    simp [hstyle, jsTruthyStr, hty]

/-- C3 witness: on a filesystem where only the root `/r` exists,
reconnaissance degrades to `UNKNOWN` with empty indexes. -/
theorem reconnaissance_missing_root_witness :
    envRootOnly.fsys.pathExists "/r" = true ∧
    findFirstDir envRootOnly.fsys "/r" PAGE_OBJECT_CANDIDATES = none ∧
    ∃ r, performReconnaissance envRootOnly "/r" = Except.ok r ∧
      r.repoContext.repoType = RepoType.UNKNOWN ∧
      r.pageObjectIndex = [] ∧ r.fixtureRegistry = [] :=
  ⟨rfl, rfl, (reconnaissance_missing_root envRootOnly "/r").2 rfl rfl⟩

/-- C3 counterexample: when the repository root does not exist,
`performReconnaissance` raises `Repository not found` instead of returning
an `UNKNOWN` result — refuting "it does not raise a fatal error". -/
theorem reconnaissance_missing_root_counterexample :
    performReconnaissance envNone "/repo" =
      Except.error "Repository not found: /repo" := rfl

/-! ## The page-object splice -/

/-- The blank-line skip never runs past the end of the list. -/
theorem countLeadingBlank_le : ∀ l : List String, countLeadingBlank l ≤ l.length := by
  intro l
  induction l with
  | nil => exact Nat.le_refl 0
  | cons x xs ih =>
    unfold countLeadingBlank
    split_ifs with h
    · simpa using ih
    · exact Nat.zero_le _

/-- Every line skipped by the blank-line loop is blank. -/
theorem countLeadingBlank_blank :
    ∀ (l : List String) (n : Nat), n < countLeadingBlank l →
      ∃ line, l[n]? = some line ∧ jsTrim line = "" := by
  intro l
  induction l with
  | nil => intro n h; simp [countLeadingBlank] at h
  | cons x xs ih =>
    intro n h
    unfold countLeadingBlank at h
    split_ifs at h with hx
    · cases n with
      | zero => exact ⟨x, by simp, hx⟩
      | succ m =>
        obtain ⟨line, hl, hb⟩ := ih m (by omega)
        exact ⟨line, by simpa using hl, hb⟩
    · omega

/-- C9 (amended): for every file content and every modification with a
positive insertion line number, `applyPageObjectMod` is a pure text splice:
there is a position `k`, at or after the insertion point with only blank
lines skipped in between, such that the result is exactly the original lines
up to `k`, then the labeled property block followed by the labeled method
block, then the remaining original lines — every original line preserved,
in order, nothing else altered. -/
theorem applyPageObjectMod_splice (fileContent : String) (mod : PageObjectMod)
    (h : 1 ≤ mod.insertionPoint) :
    ∃ k, mod.insertionPoint - 1 ≤ k ∧
      (∀ j, mod.insertionPoint - 1 ≤ j → j < k →
        ∃ line, (jsSplitLines fileContent)[j]? = some line ∧ jsTrim line = "") ∧
      applyPageObjectMod fileContent mod =
        some (jsJoin "\n" ((jsSplitLines fileContent).take k ++ modInsertBlock mod ++
          (jsSplitLines fileContent).drop k)) := by
  refine ⟨mod.insertionPoint - 1 +
    countLeadingBlank ((jsSplitLines fileContent).drop (mod.insertionPoint - 1)),
    Nat.le_add_right _ _, ?_, ?_⟩
  · intro j hj1 hj2
    obtain ⟨m, rfl⟩ : ∃ m, j = mod.insertionPoint - 1 + m :=
      ⟨j - (mod.insertionPoint - 1), by omega⟩
    have hm : m < countLeadingBlank
        ((jsSplitLines fileContent).drop (mod.insertionPoint - 1)) := by omega
    obtain ⟨line, hl, hb⟩ := countLeadingBlank_blank _ m hm
    refine ⟨line, ?_, hb⟩
    rw [← hl, List.getElem?_drop]
  · unfold applyPageObjectMod
    rw [if_neg (by omega)]

/-- C9 witness: a concrete two-line splice at insertion line 2. -/
theorem applyPageObjectMod_splice_witness :
    1 ≤ cMod9.insertionPoint ∧
    ∃ k, cMod9.insertionPoint - 1 ≤ k ∧
      (∀ j, cMod9.insertionPoint - 1 ≤ j → j < k →
        ∃ line, (jsSplitLines cContent9)[j]? = some line ∧ jsTrim line = "") ∧
      applyPageObjectMod cContent9 cMod9 =
        some (jsJoin "\n" ((jsSplitLines cContent9).take k ++ modInsertBlock cMod9 ++
          (jsSplitLines cContent9).drop k)) :=
  ⟨by decide, applyPageObjectMod_splice cContent9 cMod9 (by decide)⟩

/-- C9 counterexample: with insertion line number `0`, the JS implementation
evaluates `lines[-1].trim()` and throws a `TypeError` instead of returning a
spliced file, so the claim does not hold for *every* `PageObjectMod`. -/
theorem applyPageObjectMod_zero_counterexample :
    applyPageObjectMod "class A" cMod9zero = none := rfl

/-! ## The end-to-end parsing scenario -/

set_option maxRecDepth 100000 in
/-- C6 (amended): parsing the scenario statements (one per line) with an
empty `PageObjectIndex` yields exactly one test-data item — with usage
`other`, because the fill-usage detector only recognizes two-argument
`.fill(sel, var)` calls, not the chained `.fill(var)` — two action tokens,
a single `AUTHENTICATION` cluster containing both (the `getByLabel('Email')`
locator matches the auth-keyword rule before the form-submission rule), and
two new `SelectorMapping`s whose target class is the sentinel
`"UnknownPage"`. -/
theorem scenario_parse :
    (parseRawCode scenarioLines).testData =
      [{ variableName := "email", value := "a@b.com", type := "string",
         usage := Usage.other }] ∧
    (parseRawCode scenarioLines).tokens.map ActionToken.action =
      [ActionKind.fill, ActionKind.click] ∧
    (parseRawCode scenarioLines).clusters.map Cluster.type =
      [ClusterType.AUTHENTICATION] ∧
    ((parseRawCode scenarioLines).clusters.map Cluster.tokens).flatten =
      (parseRawCode scenarioLines).tokens ∧
    (mapAllOrphans (parseRawCode scenarioLines).tokens []).map
      (fun m => (m.targetClass, m.targetProperty, m.isNewProperty)) =
      [("UnknownPage", "email", true), ("UnknownPage", "submit", true)] :=
  ⟨rfl, rfl, rfl, rfl, rfl⟩

set_option maxRecDepth 100000 in
/-- C6 counterexample: on the scenario input text exactly as the claim
states it (one line), the parser recognizes only the first action (the
chained-action pattern matches once per line), the `const` declaration is
filtered out as a locator assignment (the line contains `page.` and
`getBy`), and the single cluster is `AUTHENTICATION` — so the claimed
test-data item, the two mappings and the `FORM_SUBMISSION` cluster are all
absent. -/
theorem scenario_parse_counterexample :
    (parseRawCode scenarioOneLine).testData = [] ∧
    (parseRawCode scenarioOneLine).tokens.length = 1 ∧
    (parseRawCode scenarioOneLine).clusters.map Cluster.type =
      [ClusterType.AUTHENTICATION] ∧
    (mapAllOrphans (parseRawCode scenarioOneLine).tokens []).length = 1 :=
  ⟨rfl, rfl, rfl, rfl⟩

end QAPlugin


